import Mathlib

/-!
# Verification of the DAO app-state decoder (`src/state/dao_app_state.rs`)

Shallow embedding of the state-decoding core: the key-value snapshot model,
the schema constants, the global/local state decoders, the schema-fingerprint
matcher and the diagnostic formatter.  Machine integers (`u64`, `u8`) are
modelled as `Nat` (the code performs no arithmetic on them other than
big-endian reassembly, so no overflow is possible), Rust `String`s as their
UTF-8 byte lists (`List Nat`), `Vec<u8>` as `List Nat`, and fallible code as
`Except`.  Error values (`anyhow` messages / `ApplicationLocalStateError` in
the source) are modelled by an inductive with one constructor per distinct
error-construction site.

External library collaborators (base64 and lowercase-hex codecs of
`data_encoding`, `String::from_utf8`, `u64::from_be_bytes`) are implemented
with their standard semantics.  Repository code that is only declared, not
shown (the `app_state` accessor trait: `find_uint`, `find_bytes`, `len`,
`to_teal_encoded_str`, `get_uint_value_or_error`; the `Versions` codec; the
`SharesPercentage` conversion) is modelled from the spec, as marked on each
definition.
-/

/-! ## External byte-level collaborators -/

/-- UTF-8 validity of a byte sequence (RFC 3629), the semantics of Rust's
`String::from_utf8` success condition. -/
def isValidUtf8 : List Nat → Bool
  | [] => true
  | b :: rest =>
    if b < 128 then isValidUtf8 rest else
    match rest with
    | [] => false
    | c1 :: rest1 =>
      if 194 ≤ b && b ≤ 223 then (128 ≤ c1 && c1 ≤ 191) && isValidUtf8 rest1 else
      match rest1 with
      | [] => false
      | c2 :: rest2 =>
        if b = 224 then
          (160 ≤ c1 && c1 ≤ 191) && (128 ≤ c2 && c2 ≤ 191) && isValidUtf8 rest2
        else if (225 ≤ b && b ≤ 236) || b = 238 || b = 239 then
          (128 ≤ c1 && c1 ≤ 191) && (128 ≤ c2 && c2 ≤ 191) && isValidUtf8 rest2
        else if b = 237 then
          (128 ≤ c1 && c1 ≤ 159) && (128 ≤ c2 && c2 ≤ 191) && isValidUtf8 rest2
        else
          match rest2 with
          | [] => false
          | c3 :: rest3 =>
            if b = 240 then
              (144 ≤ c1 && c1 ≤ 191) && (128 ≤ c2 && c2 ≤ 191) &&
                (128 ≤ c3 && c3 ≤ 191) && isValidUtf8 rest3
            else if 241 ≤ b && b ≤ 243 then
              (128 ≤ c1 && c1 ≤ 191) && (128 ≤ c2 && c2 ≤ 191) &&
                (128 ≤ c3 && c3 ≤ 191) && isValidUtf8 rest3
            else if b = 244 then
              (128 ≤ c1 && c1 ≤ 143) && (128 ≤ c2 && c2 ≤ 191) &&
                (128 ≤ c3 && c3 ≤ 191) && isValidUtf8 rest3
            else false

/-- The base64 symbol for a 6-bit group (RFC 4648 standard alphabet), as the
byte of the ASCII character. -/
def b64Char (n : Nat) : Nat :=
  if n < 26 then 65 + n
  else if n < 52 then 97 + (n - 26)
  else if n < 62 then 48 + (n - 52)
  else if n = 62 then 43
  else 47

/-- Base64 encoding (RFC 4648, with padding), bytes to ASCII bytes: the
semantics of `data_encoding::BASE64.encode`. -/
def base64encode : List Nat → List Nat
  | [] => []
  | [a] => [b64Char (a / 4), b64Char (a % 4 * 16), 61, 61]
  | [a, b] => [b64Char (a / 4), b64Char (a % 4 * 16 + b / 16), b64Char (b % 16 * 4), 61]
  | a :: b :: c :: rest =>
    b64Char (a / 4) :: b64Char (a % 4 * 16 + b / 16) ::
      b64Char (b % 16 * 4 + c / 64) :: b64Char (c % 64) :: base64encode rest

/-- The 6-bit value of a base64 symbol, `none` for a byte outside the
alphabet (padding `=` included). -/
def b64Val (c : Nat) : Option Nat :=
  if 65 ≤ c && c ≤ 90 then some (c - 65)
  else if 97 ≤ c && c ≤ 122 then some (c - 71)
  else if 48 ≤ c && c ≤ 57 then some (c + 4)
  else if c = 43 then some 62
  else if c = 47 then some 63
  else none

/-- Base64 decoding (RFC 4648, strict: length a multiple of four, padding
only at the end, canonical trailing bits): the semantics of
`data_encoding::BASE64.decode`. -/
def base64decode : List Nat → Option (List Nat)
  | [] => some []
  | a :: b :: c :: d :: rest =>
    match b64Val a, b64Val b with
    | some va, some vb =>
      if c = 61 && d = 61 && rest.isEmpty then
        if vb % 16 = 0 then some [va * 4 + vb / 16] else none
      else if d = 61 && rest.isEmpty then
        match b64Val c with
        | some vc =>
          if vc % 4 = 0 then some [va * 4 + vb / 16, vb % 16 * 16 + vc / 4] else none
        | none => none
      else
        match b64Val c, b64Val d, base64decode rest with
        | some vc, some vd, some tail =>
          some ((va * 4 + vb / 16) :: (vb % 16 * 16 + vc / 4) :: (vc % 4 * 64 + vd) :: tail)
        | _, _, _ => none
    | _, _ => none
  | _ => none

/-- Lowercase hex digit of a 4-bit group, as an ASCII byte. -/
def hexDigit (n : Nat) : Nat := if n < 10 then 48 + n else 87 + n

/-- Lowercase hex encoding, bytes to ASCII bytes: the semantics of
`data_encoding::HEXLOWER.encode`. -/
def hexLower (bs : List Nat) : List Nat :=
  (bs.map (fun b => [hexDigit (b / 16), hexDigit (b % 16)])).flatten

/-- Decimal digits of a natural number (fuel-structured so it reduces), as
ASCII bytes: the semantics of `u64`'s `Display`. -/
def decDigits : Nat → Nat → List Nat
  | 0, _ => []
  | fuel + 1, n => if n < 10 then [48 + n] else decDigits fuel (n / 10) ++ [48 + n % 10]

/-- Decimal rendering of a natural number as ASCII bytes. -/
def decimalStr (n : Nat) : List Nat := decDigits (n + 1) n

/-- Big-endian bytes of a number, `k` bytes wide (most significant first). -/
def beBytes : Nat → Nat → List Nat
  | 0, _ => []
  | k + 1, n => beBytes k (n / 256) ++ [n % 256]

/-- Big-endian reassembly of a byte list: the semantics of
`u64::from_be_bytes` on its 8 bytes. -/
def fromBE (bs : List Nat) : Nat := bs.foldl (fun acc b => acc * 256 + b) 0

/-- The bytes of an ASCII string literal (all key names are ASCII). -/
def strBytes (s : String) : List Nat := s.data.map Char.toNat

/-! ## Snapshot data model (`algonaut` types) -/

/-- `TealValue`: a tagged value of a key-value snapshot.  `value_type` 1 tags
a byte-string, 2 an unsigned integer (as in `value_to_str`). -/
structure TealValue where
  value_type : Nat
  bytes : List Nat
  uint : Nat
  deriving DecidableEq

/-- `TealKeyValue`: one snapshot entry.  `key` is the bytes of the stored key
string (the base64 encoding of the logical key name, as witnessed by
`print_state` base64-decoding it). -/
structure TealKeyValue where
  key : List Nat
  value : TealValue
  deriving DecidableEq

/-- `ApplicationStateSchema`: declared slot counts of a local state. -/
structure StateSchema where
  num_byte_slice : Nat
  num_uint : Nat
  deriving DecidableEq

/-- `ApplicationLocalState`: declared schema plus the physical entries. -/
structure ApplicationLocalState where
  schema : StateSchema
  key_value : List TealKeyValue
  deriving DecidableEq

/-- Modelled from the spec: `AppStateKey::to_teal_encoded_str` of the
`app_state` accessor module (declared, not shown) — the form under which a
logical key name is stored in a snapshot, the base64 encoding of its bytes
(witnessed by `print_state` base64-decoding stored keys). -/
def to_teal_encoded_str (k : List Nat) : List Nat := base64encode k

/-- Modelled from the spec: the accessor's `find` — the tagged value stored
under logical key `k`, or absence. -/
def findKV (kvs : List TealKeyValue) (k : List Nat) : Option TealValue :=
  (kvs.find? (fun kv => kv.key == to_teal_encoded_str k)).map (fun kv => kv.value)

/-- Modelled from the spec: the accessor's `find_uint` — "find the
unsigned-integer value for key K", absence when the key is missing or its
value is not integer-tagged. -/
def find_uint (kvs : List TealKeyValue) (k : List Nat) : Option Nat :=
  match findKV kvs k with
  | some v => if v.value_type = 2 then some v.uint else none
  | none => none

/-- Modelled from the spec: the accessor's `find_bytes` — "find the
byte-string value for key K", absence when the key is missing or its value
is not bytes-tagged. -/
def find_bytes (kvs : List TealKeyValue) (k : List Nat) : Option (List Nat) :=
  match findKV kvs k with
  | some v => if v.value_type = 1 then some v.bytes else none
  | none => none

/-! ## Schema constants (key names and slot counts) -/

def GLOBAL_TOTAL_RECEIVED : List Nat := strBytes "CentralReceivedTotal"
def GLOBAL_WITHDRAWABLE_AMOUNT : List Nat := strBytes "AvailableAmount"
def GLOBAL_FUNDS_ASSET_ID : List Nat := strBytes "FundsAssetId"
def GLOBAL_SHARES_ASSET_ID : List Nat := strBytes "SharesAssetId"
def GLOBAL_DAO_NAME : List Nat := strBytes "DaoName"
def GLOBAL_DAO_DESC : List Nat := strBytes "DaoDesc"
def GLOBAL_SHARE_PRICE : List Nat := strBytes "SharePrice"
def GLOBAL_INVESTORS_SHARE : List Nat := strBytes "InvestorsPart"
def GLOBAL_IMAGE_URL : List Nat := strBytes "ImageUrl"
def GLOBAL_IMAGE_ASSET_ID : List Nat := strBytes "ImageAsset"
def GLOBAL_SOCIAL_MEDIA_URL : List Nat := strBytes "SocialMediaUrl"
def GLOBAL_PROSPECTUS_URL : List Nat := strBytes "ProspectusUrl"
def GLOBAL_PROSPECTUS_HASH : List Nat := strBytes "ProspectusHash"
def GLOBAL_SHARES_LOCKED : List Nat := strBytes "LockedShares"
def GLOBAL_VERSIONS : List Nat := strBytes "Versions"
def GLOBAL_TARGET : List Nat := strBytes "Target"
def GLOBAL_TARGET_END_DATE : List Nat := strBytes "TargetEndDate"
def GLOBAL_RAISED : List Nat := strBytes "Raised"
def GLOBAL_MIN_INVEST_AMOUNT : List Nat := strBytes "GlobalMinInvestAmount"
def GLOBAL_MAX_INVEST_AMOUNT : List Nat := strBytes "GlobalMaxInvestAmount"
def GLOBAL_TEAM_URL : List Nat := strBytes "TeamUrl"
def GLOBAL_SETUP_DATE : List Nat := strBytes "SetupDate"

def LOCAL_CLAIMED_TOTAL : List Nat := strBytes "ClaimedTotal"
def LOCAL_CLAIMED_INIT : List Nat := strBytes "ClaimedInit"
def LOCAL_SHARES : List Nat := strBytes "Shares"
def LOCAL_SIGNED_PROSPECTUS_URL : List Nat := strBytes "SignedProspectusUrl"
def LOCAL_SIGNED_PROSPECTUS_HASH : List Nat := strBytes "SignedProspectusHash"
def LOCAL_SIGNED_PROSPECTUS_TIMESTAMP : List Nat := strBytes "SignedProspectusTimestamp"

def GLOBAL_SCHEMA_NUM_BYTE_SLICES : Nat := 8
def GLOBAL_SCHEMA_NUM_INTS : Nat := 14
def LOCAL_SCHEMA_NUM_BYTE_SLICES : Nat := 3
def LOCAL_SCHEMA_NUM_INTS : Nat := 3

/-! ## Error model

One constructor per distinct error-construction site of the source. -/

/-- The three paired-optional entities. -/
inductive PairEntity
  | image
  | prospectus
  | signedProspectus
  deriving DecidableEq

/-- Failures of the diagnostic formatter `print_state` / `value_to_str`. -/
inductive PrintErr
  | keyNotBase64 (key : List Nat)
  | keyNotUtf8 (keyBytes : List Nat)
  | badValueType (tag : Nat)
  deriving DecidableEq

/-- Decode errors, one constructor per construction site.  Spec kinds:
`SchemaMismatch` = `schemaMismatch`/`localSchemaMismatch`; `FieldMissing` =
`fieldMissing`; `InconsistentPairing` = `inconsistentPairing`;
`EncodingError` = `utf8Error`/`percentageOutOfRange`/`versionsError`/
`timestampError`; propagated diagnostic failures = `diagnostic` (global,
returned as-is) and `localDiagnostic` (local, wrapped in a printing-error
message by the source). -/
inductive DErr
  | schemaMismatch (observed expected : Nat)
  | localSchemaMismatch (observed : Nat)
  | fieldMissing (key : List Nat)
  | inconsistentPairing (e : PairEntity)
  | utf8Error (bytes : List Nat)
  | percentageOutOfRange (n : Nat)
  | versionsError (bytes : List Nat)
  | timestampError (bytes : List Nat)
  | diagnostic (e : PrintErr)
  | localDiagnostic (e : PrintErr)
  deriving DecidableEq

/-- `String::from_utf8`: the byte list itself on valid UTF-8 (Rust `String`s
are modelled by their UTF-8 bytes), an encoding error otherwise. -/
def from_utf8 (bs : List Nat) : Except DErr (List Nat) :=
  if isValidUtf8 bs then .ok bs else .error (.utf8Error bs)

/-! ## Domain records -/

/-- `Nft` (the image entity): asset id and URL. -/
structure Nft where
  asset_id : Nat
  url : List Nat
  deriving DecidableEq

/-- `Prospectus`: hash and URL. -/
structure Prospectus where
  hash : List Nat
  url : List Nat
  deriving DecidableEq

/-- `SignedProspectus`: hash, URL and acknowledgment timestamp. -/
structure SignedProspectus where
  hash : List Nat
  url : List Nat
  timestamp : Nat
  deriving DecidableEq

/-- Modelled from the spec: the `Versions` pair unpacked by the shared
`bytes_to_versions` decoder (the `api::version` module is declared, not
shown): approval and clear version numbers. -/
structure Versions where
  app_approval : Nat
  app_clear : Nat
  deriving DecidableEq

/-- `CentralAppGlobalState`: the decoded global domain record.  The newtype
wrappers (`FundsAmount`, `ShareAmount`, `FundsAssetId`, `Timestamp`,
`Version`) carry no logic and are collapsed to `Nat`; `SharesPercentage`
is the range-validated raw integer. -/
structure CentralAppGlobalState where
  received : Nat
  available : Nat
  app_approval_version : Nat
  app_clear_version : Nat
  funds_asset_id : Nat
  shares_asset_id : Nat
  project_name : List Nat
  project_desc_url : Option (List Nat)
  share_price : Nat
  investors_share : Nat
  image_nft : Option Nft
  social_media_url : List Nat
  prospectus : Option Prospectus
  owner : List Nat
  locked_shares : Nat
  min_funds_target : Nat
  min_funds_target_end_date : Nat
  raised : Nat
  setup_date : Nat
  min_invest_amount : Nat
  max_invest_amount : Nat
  team_url : Option (List Nat)
  deriving DecidableEq

/-- `CentralAppInvestorState`: the decoded local (per-account) record. -/
structure CentralAppInvestorState where
  shares : Nat
  claimed : Nat
  claimed_init : Nat
  signed_prospectus : Option SignedProspectus
  deriving DecidableEq

/-! ## Field-reading helpers -/

/-- `get_int_or_err`: required integer field, `fieldMissing` when absent. -/
def get_int_or_err (key : List Nat) (gs : List TealKeyValue) : Except DErr Nat :=
  match find_uint gs key with
  | some v => .ok v
  | none => .error (.fieldMissing key)

/-- `get_bytes_or_err`: required byte-string field, `fieldMissing` when
absent. -/
def get_bytes_or_err (key : List Nat) (gs : List TealKeyValue) : Except DErr (List Nat) :=
  match find_bytes gs key with
  | some v => .ok v
  | none => .error (.fieldMissing key)

/-- Modelled from the spec: `get_uint_value_or_error` of the `app_state`
module (declared, not shown) — required integer field of a local state,
"missing key ⇒ FieldMissing(key)". -/
def get_uint_value_or_error (state : ApplicationLocalState) (key : List Nat) :
    Except DErr Nat :=
  match find_uint state.key_value key with
  | some v => .ok v
  | none => .error (.fieldMissing key)

/-- `read_bytes_none_if_empty`: byte-string field treated as not-set when the
key is absent or its value has zero length. -/
def read_bytes_none_if_empty (gs : List TealKeyValue) (key : List Nat) :
    Option (List Nat) :=
  match find_bytes gs key with
  | some bytes => if bytes.isEmpty then none else some bytes
  | none => none

/-- `read_string_none_if_empty`: `read_bytes_none_if_empty` plus UTF-8
validation of a set value. -/
def read_string_none_if_empty (gs : List TealKeyValue) (key : List Nat) :
    Except DErr (Option (List Nat)) :=
  match read_bytes_none_if_empty gs key with
  | some bytes =>
    match from_utf8 bytes with
    | .ok s => .ok (some s)
    | .error e => .error e
  | none => .ok none

/-- Modelled from the spec: the `SharesPercentage` conversion (`try_into` of
the raw integer, declared in `models`, not shown) — "the raw integer for
profit-share is range/format-validated during conversion into a domain
percentage type; out-of-range ⇒ conversion failure": valid range 0–100. -/
def sharesPercentageTryFrom (n : Nat) : Except DErr Nat :=
  if n ≤ 100 then .ok n else .error (.percentageOutOfRange n)

/-- Modelled from the spec: `bytes_to_versions` (the shared decoder of the
`api::version` module, declared, not shown) — "two version numbers
bit-packed or concatenated", here the concatenation of two 8-byte
big-endian numbers; any other width fails. -/
def bytes_to_versions (bs : List Nat) : Except DErr Versions :=
  if bs.length = 16 then .ok ⟨fromBE (bs.take 8), fromBE (bs.drop 8)⟩
  else .error (.versionsError bs)

/-! ## Diagnostic formatter -/

/-- A rendered snapshot value: `addressForm raw` stands for the external
address formatter's rendering of the 32 raw bytes (`Address(array)
.to_string()`, an external collaborator per the spec); `plain` is an
ordinary ASCII rendering carried literally. -/
inductive RenderedValue
  | addressForm (raw : List Nat)
  | plain (s : List Nat)
  deriving DecidableEq

/-- `to_hex_str`: `format!("0x{}", HEXLOWER.encode(bytes))`. -/
def to_hex_str (bytes : List Nat) : List Nat := 48 :: 120 :: hexLower bytes

/-- `value_to_str`: render one tagged value; bytes (tag 1) as the address
form when exactly 32 bytes wide, else as `0x`-prefixed lowercase hex;
integers (tag 2) as decimal; any other tag is a fatal formatting error. -/
def value_to_str (value : TealValue) : Except PrintErr RenderedValue :=
  match value.value_type with
  | 1 => .ok (if value.bytes.length = 32 then .addressForm value.bytes
              else .plain (to_hex_str value.bytes))
  | 2 => .ok (.plain (decimalStr value.uint))
  | t => .error (.badValueType t)

/-- Strict lexicographic byte-list order (Rust `String` ordering of the
decoded keys, which compares UTF-8 bytes). -/
def lexLt : List Nat → List Nat → Bool
  | [], [] => false
  | [], _ :: _ => true
  | _ :: _, [] => false
  | a :: as_, b :: bs => if a < b then true else if a = b then lexLt as_ bs else false

/-- Insertion into a key-sorted association list, replacing an equal key:
the `BTreeMap::insert` of `print_state`. -/
def insertSorted (k : List Nat) (v : RenderedValue) :
    List (List Nat × RenderedValue) → List (List Nat × RenderedValue)
  | [] => [(k, v)]
  | (k2, v2) :: rest =>
    if lexLt k k2 then (k, v) :: (k2, v2) :: rest
    else if k = k2 then (k, v) :: rest
    else (k2, v2) :: insertSorted k v rest

/-- The iteration of `print_state`: base64-decode each stored key, require
it valid UTF-8, render its value, and accumulate into the sorted map;
the first failure aborts. -/
def print_state_go (acc : List (List Nat × RenderedValue)) :
    List TealKeyValue → Except PrintErr (List (List Nat × RenderedValue))
  | [] => .ok acc
  | kv :: rest =>
    match base64decode kv.key with
    | none => .error (.keyNotBase64 kv.key)
    | some keyBytes =>
      if isValidUtf8 keyBytes then
        match value_to_str kv.value with
        | .ok v => print_state_go (insertSorted keyBytes v acc) rest
        | .error e => .error e
      else .error (.keyNotUtf8 keyBytes)

/-- `print_state`: the diagnostic dump of a snapshot, a decoded-key-sorted
rendering, or the first formatting failure.  The `log::debug!` emission is
an external side channel and not modelled. -/
def print_state (values : List TealKeyValue) :
    Except PrintErr (List (List Nat × RenderedValue)) :=
  print_state_go [] values

/-! ## Global decoder -/

/-- The body of `dao_global_state` after the length gate: field extraction,
paired-entity assembly and record construction, in source order.
`creator` is `app.params.creator`, supplied alongside the snapshot. -/
def dao_global_state_checked (gs : List TealKeyValue) (creator : List Nat) :
    Except DErr CentralAppGlobalState := do
  let total_received ← get_int_or_err GLOBAL_TOTAL_RECEIVED gs
  let available ← get_int_or_err GLOBAL_WITHDRAWABLE_AMOUNT gs
  let funds_asset_id ← get_int_or_err GLOBAL_FUNDS_ASSET_ID gs
  let shares_asset_id ← get_int_or_err GLOBAL_SHARES_ASSET_ID gs
  let project_name ← from_utf8 (← get_bytes_or_err GLOBAL_DAO_NAME gs)
  let project_desc_url ← read_string_none_if_empty gs GLOBAL_DAO_DESC
  let share_price ← get_int_or_err GLOBAL_SHARE_PRICE gs
  let investors_share ← sharesPercentageTryFrom (← get_int_or_err GLOBAL_INVESTORS_SHARE gs)
  let image_asset_id := find_uint gs GLOBAL_IMAGE_ASSET_ID
  let image_url := find_bytes gs GLOBAL_IMAGE_URL
  let image_nft ← (match image_asset_id, image_url with
    | some asset_id, some url_bytes =>
      if asset_id = 0 ∧ url_bytes = [] then pure none
      else do pure (some (Nft.mk asset_id (← from_utf8 url_bytes)))
    | none, none => pure none
    | _, _ => Except.error (.inconsistentPairing .image))
  let prospectus_url ← read_string_none_if_empty gs GLOBAL_PROSPECTUS_URL
  let prospectus_hash ← read_string_none_if_empty gs GLOBAL_PROSPECTUS_HASH
  let prospectus ← (match prospectus_url, prospectus_hash with
    | some url, some hash => pure (some (Prospectus.mk hash url))
    | none, none => pure none
    | _, _ => Except.error (.inconsistentPairing .prospectus))
  let social_media_url ← from_utf8 (← get_bytes_or_err GLOBAL_SOCIAL_MEDIA_URL gs)
  let versions_bytes ← get_bytes_or_err GLOBAL_VERSIONS gs
  let versions ← bytes_to_versions versions_bytes
  let shares_locked ← get_int_or_err GLOBAL_SHARES_LOCKED gs
  let min_funds_target ← get_int_or_err GLOBAL_TARGET gs
  let min_funds_target_end_date ← get_int_or_err GLOBAL_TARGET_END_DATE gs
  let raised ← get_int_or_err GLOBAL_RAISED gs
  let setup_date ← get_int_or_err GLOBAL_SETUP_DATE gs
  let min_invest_amount ← get_int_or_err GLOBAL_MIN_INVEST_AMOUNT gs
  let max_invest_amount ← get_int_or_err GLOBAL_MAX_INVEST_AMOUNT gs
  let team_url ← read_string_none_if_empty gs GLOBAL_TEAM_URL
  pure {
    received := total_received
    available := available
    app_approval_version := versions.app_approval
    app_clear_version := versions.app_clear
    funds_asset_id := funds_asset_id
    shares_asset_id := shares_asset_id
    project_name := project_name
    project_desc_url := project_desc_url
    share_price := share_price
    investors_share := investors_share
    image_nft := image_nft
    social_media_url := social_media_url
    prospectus := prospectus
    owner := creator
    locked_shares := shares_locked
    min_funds_target := min_funds_target
    min_funds_target_end_date := min_funds_target_end_date
    raised := raised
    setup_date := setup_date
    min_invest_amount := min_invest_amount
    max_invest_amount := max_invest_amount
    team_url := team_url }

/-- `dao_global_state`: the length gate (debug-dumping and failing with the
schema-mismatch error on deviation, where a dump failure propagates via
`?`), then the checked decode.  The network fetch of the snapshot and of
`app.params.creator` is the external accessor. -/
def dao_global_state (gs : List TealKeyValue) (creator : List Nat) :
    Except DErr CentralAppGlobalState :=
  if gs.length ≠ GLOBAL_SCHEMA_NUM_BYTE_SLICES + GLOBAL_SCHEMA_NUM_INTS then
    match print_state gs with
    | .ok _ => .error (.schemaMismatch gs.length
        (GLOBAL_SCHEMA_NUM_BYTE_SLICES + GLOBAL_SCHEMA_NUM_INTS))
    | .error e => .error (.diagnostic e)
  else dao_global_state_checked gs creator

/-! ## Local decoder -/

/-- The body of `central_investor_state_from_local_state` after the length
gate, in source order. -/
def central_investor_state_checked (state : ApplicationLocalState) :
    Except DErr CentralAppInvestorState := do
  let shares ← get_uint_value_or_error state LOCAL_SHARES
  let claimed ← get_uint_value_or_error state LOCAL_CLAIMED_TOTAL
  let claimed_init ← get_uint_value_or_error state LOCAL_CLAIMED_INIT
  let signed_prospectus_url ← read_string_none_if_empty state.key_value LOCAL_SIGNED_PROSPECTUS_URL
  let signed_prospectus_hash ← read_string_none_if_empty state.key_value LOCAL_SIGNED_PROSPECTUS_HASH
  let signed_prospectus_timestamp :=
    read_bytes_none_if_empty state.key_value LOCAL_SIGNED_PROSPECTUS_TIMESTAMP
  let signed_prospectus ← (match signed_prospectus_url, signed_prospectus_hash,
      signed_prospectus_timestamp with
    | some url, some hash, some timestamp =>
      if timestamp.length = 8 then
        pure (some (SignedProspectus.mk hash url (fromBE timestamp)))
      else Except.error (.timestampError timestamp)
    | none, none, none => pure none
    | _, _, _ => Except.error (.inconsistentPairing .signedProspectus))
  pure {
    shares := shares
    claimed := claimed
    claimed_init := claimed_init
    signed_prospectus := signed_prospectus }

/-- `central_investor_state_from_local_state`: the length gate (dumping and
failing with the local schema-mismatch error on deviation, a dump failure
propagating wrapped in a printing-error message), then the checked
decode. -/
def central_investor_state_from_local_state (state : ApplicationLocalState) :
    Except DErr CentralAppInvestorState :=
  if state.key_value.length ≠ LOCAL_SCHEMA_NUM_BYTE_SLICES + LOCAL_SCHEMA_NUM_INTS then
    match print_state state.key_value with
    | .ok _ => .error (.localSchemaMismatch state.key_value.length)
    | .error e => .error (.localDiagnostic e)
  else central_investor_state_checked state

/-! ## Schema fingerprint matcher -/

/-- Key presence in the `HashMap` collected from the entries
(`contains_key` after `collect`): some entry stores that key. -/
def containsKey (kvs : List TealKeyValue) (k : List Nat) : Bool :=
  kvs.any (fun kv => kv.key == k)

/-- `matches_capi_local_state`: declared slot counts equal the Local
schema's, physical entry count equals the declared total, and the three
required keys are present.  A boolean classification, total over all
inputs. -/
def matches_capi_local_state (app_local_state : ApplicationLocalState) : Bool :=
  if ¬(app_local_state.schema.num_byte_slice = LOCAL_SCHEMA_NUM_BYTE_SLICES ∧
      app_local_state.schema.num_uint = LOCAL_SCHEMA_NUM_INTS ∧
      app_local_state.key_value.length =
        LOCAL_SCHEMA_NUM_BYTE_SLICES + LOCAL_SCHEMA_NUM_INTS) then
    false
  else
    containsKey app_local_state.key_value (to_teal_encoded_str LOCAL_CLAIMED_TOTAL) &&
    containsKey app_local_state.key_value (to_teal_encoded_str LOCAL_CLAIMED_INIT) &&
    containsKey app_local_state.key_value (to_teal_encoded_str LOCAL_SHARES)

/-! ## Synthetic snapshots

Builders for the round-trip and pairing properties: a snapshot entry per
declared field of a schema, with integer slots tagged 2 and byte slots
tagged 1, stored under the teal-encoded key. -/

/-- A synthetic integer-slot entry. -/
def uintEntry (key : List Nat) (n : Nat) : TealKeyValue :=
  ⟨to_teal_encoded_str key, ⟨2, [], n⟩⟩

/-- A synthetic byte-slot entry. -/
def bytesEntry (key : List Nat) (bs : List Nat) : TealKeyValue :=
  ⟨to_teal_encoded_str key, ⟨1, bs, 0⟩⟩

/-- A synthetic global snapshot holding every declared field of the Global
schema (8 byte slots, then 14 integer slots: 22 entries). -/
def mkGlobalKVs (recv avail fid sid : Nat) (name desc : List Nat)
    (price ishare imgAsset : Nat) (imgUrl social vers pUrl pHash : List Nat)
    (locked target tend raisedAmt setup minI maxI : Nat) (team : List Nat) :
    List TealKeyValue :=
  [bytesEntry GLOBAL_DAO_NAME name,
   bytesEntry GLOBAL_DAO_DESC desc,
   bytesEntry GLOBAL_SOCIAL_MEDIA_URL social,
   bytesEntry GLOBAL_VERSIONS vers,
   bytesEntry GLOBAL_IMAGE_URL imgUrl,
   bytesEntry GLOBAL_PROSPECTUS_URL pUrl,
   bytesEntry GLOBAL_PROSPECTUS_HASH pHash,
   bytesEntry GLOBAL_TEAM_URL team,
   uintEntry GLOBAL_TOTAL_RECEIVED recv,
   uintEntry GLOBAL_WITHDRAWABLE_AMOUNT avail,
   uintEntry GLOBAL_FUNDS_ASSET_ID fid,
   uintEntry GLOBAL_SHARES_ASSET_ID sid,
   uintEntry GLOBAL_SHARE_PRICE price,
   uintEntry GLOBAL_INVESTORS_SHARE ishare,
   uintEntry GLOBAL_IMAGE_ASSET_ID imgAsset,
   uintEntry GLOBAL_SHARES_LOCKED locked,
   uintEntry GLOBAL_TARGET target,
   uintEntry GLOBAL_TARGET_END_DATE tend,
   uintEntry GLOBAL_RAISED raisedAmt,
   uintEntry GLOBAL_SETUP_DATE setup,
   uintEntry GLOBAL_MIN_INVEST_AMOUNT minI,
   uintEntry GLOBAL_MAX_INVEST_AMOUNT maxI]

/-- A synthetic local snapshot holding every declared field of the Local
schema (3 byte slots, 3 integer slots: 6 entries), with the Local declared
slot counts. -/
def mkLocal (sharesAmt claimedT claimedI : Nat) (su sh st : List Nat) :
    ApplicationLocalState :=
  ⟨⟨LOCAL_SCHEMA_NUM_BYTE_SLICES, LOCAL_SCHEMA_NUM_INTS⟩,
   [bytesEntry LOCAL_SIGNED_PROSPECTUS_URL su,
    bytesEntry LOCAL_SIGNED_PROSPECTUS_HASH sh,
    bytesEntry LOCAL_SIGNED_PROSPECTUS_TIMESTAMP st,
    uintEntry LOCAL_SHARES sharesAmt,
    uintEntry LOCAL_CLAIMED_TOTAL claimedT,
    uintEntry LOCAL_CLAIMED_INIT claimedI]⟩

/-- The synthetic byte slot of an optional string field: the empty sentinel
when unset. -/
def optBytes (o : Option (List Nat)) : List Nat := o.getD []

/-- Modelled from the spec: the encoding direction of the shared `Versions`
codec — the concatenation of the two 8-byte big-endian version numbers,
the left inverse of `bytes_to_versions` on 64-bit values. -/
def versionsToBytes (approval clear : Nat) : List Nat :=
  beBytes 8 approval ++ beBytes 8 clear

/-- Encoding every declared field of the Global schema from a domain
record into a synthetic snapshot. -/
def encodeGlobal (r : CentralAppGlobalState) : List TealKeyValue :=
  mkGlobalKVs r.received r.available r.funds_asset_id r.shares_asset_id
    r.project_name (optBytes r.project_desc_url) r.share_price r.investors_share
    ((r.image_nft.map Nft.asset_id).getD 0) (optBytes (r.image_nft.map Nft.url))
    r.social_media_url (versionsToBytes r.app_approval_version r.app_clear_version)
    (optBytes (r.prospectus.map Prospectus.url)) (optBytes (r.prospectus.map Prospectus.hash))
    r.locked_shares r.min_funds_target r.min_funds_target_end_date r.raised
    r.setup_date r.min_invest_amount r.max_invest_amount (optBytes r.team_url)

/-- Encoding every declared field of the Local schema from a domain record
into a synthetic snapshot. -/
def encodeLocal (r : CentralAppInvestorState) : ApplicationLocalState :=
  mkLocal r.shares r.claimed r.claimed_init
    (optBytes (r.signed_prospectus.map SignedProspectus.url))
    (optBytes (r.signed_prospectus.map SignedProspectus.hash))
    ((r.signed_prospectus.map (fun sp => beBytes 8 sp.timestamp)).getD [])

/-- Validity of an optional string field for encoding: unset, or a
non-empty valid-UTF-8 value (the empty string is the unset sentinel). -/
def optStrSet : Option (List Nat) → Bool
  | none => true
  | some s => isValidUtf8 s && !s.isEmpty

/-- A valid global domain record: one whose field values are expressible in
the Global schema (UTF-8 texts, optional strings non-empty when set, the
image entity away from the all-default pair, prospectus components
non-empty, the percentage in range, versions 64-bit). -/
def validGlobal (r : CentralAppGlobalState) : Bool :=
  isValidUtf8 r.project_name && isValidUtf8 r.social_media_url &&
  optStrSet r.project_desc_url && optStrSet r.team_url &&
  (match r.image_nft with
   | none => true
   | some n => isValidUtf8 n.url && !(n.asset_id == 0 && n.url.isEmpty)) &&
  (match r.prospectus with
   | none => true
   | some p => isValidUtf8 p.url && isValidUtf8 p.hash &&
       !p.url.isEmpty && !p.hash.isEmpty) &&
  r.investors_share ≤ 100 &&
  r.app_approval_version < 256 ^ 8 && r.app_clear_version < 256 ^ 8

/-- A valid local domain record: the signed-prospectus entity, when set, has
non-empty valid-UTF-8 hash and URL and a 64-bit timestamp. -/
def validLocal (r : CentralAppInvestorState) : Bool :=
  match r.signed_prospectus with
  | none => true
  | some sp => isValidUtf8 sp.url && isValidUtf8 sp.hash &&
      !sp.url.isEmpty && !sp.hash.isEmpty && sp.timestamp < 256 ^ 8

/-! ## Helper instances and lemmas -/

instance {ε α : Type} [DecidableEq ε] [DecidableEq α] : DecidableEq (Except ε α)
  | .ok a, .ok b =>
    if h : a = b then .isTrue (by rw [h]) else .isFalse (by intro hc; cases hc; exact h rfl)
  | .ok _, .error _ => .isFalse (by intro hc; cases hc)
  | .error _, .ok _ => .isFalse (by intro hc; cases hc)
  | .error e, .error f =>
    if h : e = f then .isTrue (by rw [h]) else .isFalse (by intro hc; cases hc; exact h rfl)

theorem ok_bind {ε α β : Type} (a : α) (f : α → Except ε β) :
    (Except.ok a : Except ε α) >>= f = f a := rfl

theorem error_bind {ε α β : Type} (e : ε) (f : α → Except ε β) :
    (Except.error e : Except ε α) >>= f = Except.error e := rfl

theorem pure_eq_ok {ε α : Type} (a : α) : (pure a : Except ε α) = Except.ok a := rfl

theorem isOk_ok {ε α : Type} (a : α) : (Except.ok a : Except ε α).isOk = true := rfl

theorem isOk_error {ε α : Type} (e : ε) : (Except.error e : Except ε α).isOk = false := rfl

theorem beBytes_length (k n : Nat) : (beBytes k n).length = k := by
  induction k generalizing n with
  | zero => rfl
  | succ k ih => simp [beBytes, ih]

theorem beBytes_ne_nil (n : Nat) : beBytes 8 n ≠ [] := by
  intro h
  have := beBytes_length 8 n
  rw [h] at this
  simp at this

theorem fromBE_snoc (l : List Nat) (b : Nat) :
    fromBE (l ++ [b]) = fromBE l * 256 + b := by
  simp [fromBE, List.foldl_append]

theorem fromBE_beBytes (k n : Nat) (h : n < 256 ^ k) : fromBE (beBytes k n) = n := by
  induction k generalizing n with
  | zero =>
    have : n = 0 := by simpa using h
    simp [this, beBytes, fromBE]
  | succ k ih =>
    have h2 : n / 256 < 256 ^ k := by
      apply Nat.div_lt_of_lt_mul
      rw [pow_succ] at h
      omega
    rw [beBytes, fromBE_snoc, ih _ h2]
    omega

theorem bytes_to_versions_versionsToBytes (a c : Nat)
    (ha : a < 256 ^ 8) (hc : c < 256 ^ 8) :
    bytes_to_versions (versionsToBytes a c) = .ok ⟨a, c⟩ := by
  have la : (beBytes 8 a).length = 8 := beBytes_length 8 a
  have lc : (beBytes 8 c).length = 8 := beBytes_length 8 c
  unfold bytes_to_versions versionsToBytes
  rw [if_pos (by simp [la, lc]), List.take_left' la, List.drop_left' la]
  simp [fromBE_beBytes 8 a ha, fromBE_beBytes 8 c hc]

/-! ## Lookup lemmas on the synthetic snapshots

Each declared field of a synthetic snapshot is found under its key; the
stored keys are closed terms, so each lookup reduces definitionally. -/

section FamilyLemmas

variable (recv avail fid sid : Nat) (name desc : List Nat)
variable (price ishare imgAsset : Nat) (imgUrl social vers pUrl pHash : List Nat)
variable (locked target tend raisedAmt setup minI maxI : Nat) (team : List Nat)
variable (sharesAmt claimedT claimedI : Nat) (su sh st : List Nat)

theorem mkG_length :
    (mkGlobalKVs recv avail fid sid name desc price ishare imgAsset imgUrl social
      vers pUrl pHash locked target tend raisedAmt setup minI maxI team).length = 22 := rfl

theorem mkG_gate (creator : List Nat) :
    dao_global_state (mkGlobalKVs recv avail fid sid name desc price ishare imgAsset
      imgUrl social vers pUrl pHash locked target tend raisedAmt setup minI maxI team)
      creator =
    dao_global_state_checked (mkGlobalKVs recv avail fid sid name desc price ishare
      imgAsset imgUrl social vers pUrl pHash locked target tend raisedAmt setup minI
      maxI team) creator := rfl

theorem mkG_received :
    get_int_or_err GLOBAL_TOTAL_RECEIVED (mkGlobalKVs recv avail fid sid name desc
      price ishare imgAsset imgUrl social vers pUrl pHash locked target tend raisedAmt
      setup minI maxI team) = .ok recv := rfl

theorem mkG_available :
    get_int_or_err GLOBAL_WITHDRAWABLE_AMOUNT (mkGlobalKVs recv avail fid sid name desc
      price ishare imgAsset imgUrl social vers pUrl pHash locked target tend raisedAmt
      setup minI maxI team) = .ok avail := rfl

theorem mkG_funds_asset :
    get_int_or_err GLOBAL_FUNDS_ASSET_ID (mkGlobalKVs recv avail fid sid name desc
      price ishare imgAsset imgUrl social vers pUrl pHash locked target tend raisedAmt
      setup minI maxI team) = .ok fid := rfl

theorem mkG_shares_asset :
    get_int_or_err GLOBAL_SHARES_ASSET_ID (mkGlobalKVs recv avail fid sid name desc
      price ishare imgAsset imgUrl social vers pUrl pHash locked target tend raisedAmt
      setup minI maxI team) = .ok sid := rfl

theorem mkG_name :
    get_bytes_or_err GLOBAL_DAO_NAME (mkGlobalKVs recv avail fid sid name desc
      price ishare imgAsset imgUrl social vers pUrl pHash locked target tend raisedAmt
      setup minI maxI team) = .ok name := rfl

theorem mkG_desc :
    read_bytes_none_if_empty (mkGlobalKVs recv avail fid sid name desc
      price ishare imgAsset imgUrl social vers pUrl pHash locked target tend raisedAmt
      setup minI maxI team) GLOBAL_DAO_DESC =
      (if desc.isEmpty then none else some desc) := rfl

theorem mkG_price :
    get_int_or_err GLOBAL_SHARE_PRICE (mkGlobalKVs recv avail fid sid name desc
      price ishare imgAsset imgUrl social vers pUrl pHash locked target tend raisedAmt
      setup minI maxI team) = .ok price := rfl

theorem mkG_ishare :
    get_int_or_err GLOBAL_INVESTORS_SHARE (mkGlobalKVs recv avail fid sid name desc
      price ishare imgAsset imgUrl social vers pUrl pHash locked target tend raisedAmt
      setup minI maxI team) = .ok ishare := rfl

theorem mkG_imgAsset :
    find_uint (mkGlobalKVs recv avail fid sid name desc
      price ishare imgAsset imgUrl social vers pUrl pHash locked target tend raisedAmt
      setup minI maxI team) GLOBAL_IMAGE_ASSET_ID = some imgAsset := rfl

theorem mkG_imgUrl :
    find_bytes (mkGlobalKVs recv avail fid sid name desc
      price ishare imgAsset imgUrl social vers pUrl pHash locked target tend raisedAmt
      setup minI maxI team) GLOBAL_IMAGE_URL = some imgUrl := rfl

theorem mkG_pUrl :
    read_bytes_none_if_empty (mkGlobalKVs recv avail fid sid name desc
      price ishare imgAsset imgUrl social vers pUrl pHash locked target tend raisedAmt
      setup minI maxI team) GLOBAL_PROSPECTUS_URL =
      (if pUrl.isEmpty then none else some pUrl) := rfl

theorem mkG_pHash :
    read_bytes_none_if_empty (mkGlobalKVs recv avail fid sid name desc
      price ishare imgAsset imgUrl social vers pUrl pHash locked target tend raisedAmt
      setup minI maxI team) GLOBAL_PROSPECTUS_HASH =
      (if pHash.isEmpty then none else some pHash) := rfl

theorem mkG_social :
    get_bytes_or_err GLOBAL_SOCIAL_MEDIA_URL (mkGlobalKVs recv avail fid sid name desc
      price ishare imgAsset imgUrl social vers pUrl pHash locked target tend raisedAmt
      setup minI maxI team) = .ok social := rfl

theorem mkG_versions :
    get_bytes_or_err GLOBAL_VERSIONS (mkGlobalKVs recv avail fid sid name desc
      price ishare imgAsset imgUrl social vers pUrl pHash locked target tend raisedAmt
      setup minI maxI team) = .ok vers := rfl

theorem mkG_locked :
    get_int_or_err GLOBAL_SHARES_LOCKED (mkGlobalKVs recv avail fid sid name desc
      price ishare imgAsset imgUrl social vers pUrl pHash locked target tend raisedAmt
      setup minI maxI team) = .ok locked := rfl

theorem mkG_target :
    get_int_or_err GLOBAL_TARGET (mkGlobalKVs recv avail fid sid name desc
      price ishare imgAsset imgUrl social vers pUrl pHash locked target tend raisedAmt
      setup minI maxI team) = .ok target := rfl

theorem mkG_tend :
    get_int_or_err GLOBAL_TARGET_END_DATE (mkGlobalKVs recv avail fid sid name desc
      price ishare imgAsset imgUrl social vers pUrl pHash locked target tend raisedAmt
      setup minI maxI team) = .ok tend := rfl

theorem mkG_raised :
    get_int_or_err GLOBAL_RAISED (mkGlobalKVs recv avail fid sid name desc
      price ishare imgAsset imgUrl social vers pUrl pHash locked target tend raisedAmt
      setup minI maxI team) = .ok raisedAmt := rfl

theorem mkG_setup :
    get_int_or_err GLOBAL_SETUP_DATE (mkGlobalKVs recv avail fid sid name desc
      price ishare imgAsset imgUrl social vers pUrl pHash locked target tend raisedAmt
      setup minI maxI team) = .ok setup := rfl

theorem mkG_minI :
    get_int_or_err GLOBAL_MIN_INVEST_AMOUNT (mkGlobalKVs recv avail fid sid name desc
      price ishare imgAsset imgUrl social vers pUrl pHash locked target tend raisedAmt
      setup minI maxI team) = .ok minI := rfl

theorem mkG_maxI :
    get_int_or_err GLOBAL_MAX_INVEST_AMOUNT (mkGlobalKVs recv avail fid sid name desc
      price ishare imgAsset imgUrl social vers pUrl pHash locked target tend raisedAmt
      setup minI maxI team) = .ok maxI := rfl

theorem mkG_team :
    read_bytes_none_if_empty (mkGlobalKVs recv avail fid sid name desc
      price ishare imgAsset imgUrl social vers pUrl pHash locked target tend raisedAmt
      setup minI maxI team) GLOBAL_TEAM_URL =
      (if team.isEmpty then none else some team) := rfl

theorem mkL_length :
    (mkLocal sharesAmt claimedT claimedI su sh st).key_value.length = 6 := rfl

theorem mkL_gate :
    central_investor_state_from_local_state (mkLocal sharesAmt claimedT claimedI su sh st) =
    central_investor_state_checked (mkLocal sharesAmt claimedT claimedI su sh st) := rfl

theorem mkL_shares :
    get_uint_value_or_error (mkLocal sharesAmt claimedT claimedI su sh st) LOCAL_SHARES =
      .ok sharesAmt := rfl

theorem mkL_claimedT :
    get_uint_value_or_error (mkLocal sharesAmt claimedT claimedI su sh st)
      LOCAL_CLAIMED_TOTAL = .ok claimedT := rfl

theorem mkL_claimedI :
    get_uint_value_or_error (mkLocal sharesAmt claimedT claimedI su sh st)
      LOCAL_CLAIMED_INIT = .ok claimedI := rfl

theorem mkL_su :
    read_bytes_none_if_empty (mkLocal sharesAmt claimedT claimedI su sh st).key_value
      LOCAL_SIGNED_PROSPECTUS_URL = (if su.isEmpty then none else some su) := rfl

theorem mkL_sh :
    read_bytes_none_if_empty (mkLocal sharesAmt claimedT claimedI su sh st).key_value
      LOCAL_SIGNED_PROSPECTUS_HASH = (if sh.isEmpty then none else some sh) := rfl

theorem mkL_st :
    read_bytes_none_if_empty (mkLocal sharesAmt claimedT claimedI su sh st).key_value
      LOCAL_SIGNED_PROSPECTUS_TIMESTAMP = (if st.isEmpty then none else some st) := rfl

end FamilyLemmas

/-! ## Claim C8: empty value behaves as absent key for optional readers -/

/-- The snapshot with every entry stored under `k` removed. -/
def eraseKey (kvs : List TealKeyValue) (k : List Nat) : List TealKeyValue :=
  kvs.filter (fun kv => !(kv.key == to_teal_encoded_str k))

theorem find?_eraseKey (kvs : List TealKeyValue) (k : List Nat) :
    (eraseKey kvs k).find? (fun kv => kv.key == to_teal_encoded_str k) = none := by
  induction kvs with
  | nil => rfl
  | cons kv rest ih =>
    unfold eraseKey at ih ⊢
    cases hb : (kv.key == to_teal_encoded_str k) with
    | true => simp [List.filter_cons, hb, ih]
    | false => simp [List.filter_cons, List.find?_cons, hb, ih]

theorem find_bytes_eraseKey (kvs : List TealKeyValue) (k : List Nat) :
    find_bytes (eraseKey kvs k) k = none := by
  simp [find_bytes, findKV, find?_eraseKey]

/-- C8: for every snapshot and key, a key present with a zero-length
byte-string value is treated identically to a fully absent key:
`read_bytes_none_if_empty` (and hence `read_string_none_if_empty`) returns
`none` when the key's byte value is empty, exactly as on the snapshot with
the key erased. -/
theorem c8_empty_is_absent (gs : List TealKeyValue) (k : List Nat)
    (h : find_bytes gs k = some [] ∨ find_bytes gs k = none) :
    read_bytes_none_if_empty gs k = none ∧
    read_string_none_if_empty gs k = .ok none ∧
    read_bytes_none_if_empty (eraseKey gs k) k = none ∧
    read_string_none_if_empty (eraseKey gs k) k = .ok none := by
  have he : read_bytes_none_if_empty (eraseKey gs k) k = none := by
    simp [read_bytes_none_if_empty, find_bytes_eraseKey]
  have hg : read_bytes_none_if_empty gs k = none := by
    rcases h with h | h <;> simp [read_bytes_none_if_empty, h]
  exact ⟨hg, by simp [read_string_none_if_empty, hg], he,
    by simp [read_string_none_if_empty, he]⟩

/-- Witness for C8: a snapshot holding the signed-prospectus-URL key with an
empty value, and a key-erased variant; both read as `none`. -/
theorem c8_empty_is_absent_witness :
    read_bytes_none_if_empty [bytesEntry LOCAL_SIGNED_PROSPECTUS_URL []]
      LOCAL_SIGNED_PROSPECTUS_URL = none ∧
    read_string_none_if_empty [bytesEntry LOCAL_SIGNED_PROSPECTUS_URL []]
      LOCAL_SIGNED_PROSPECTUS_URL = .ok none ∧
    read_bytes_none_if_empty
      (eraseKey [bytesEntry LOCAL_SIGNED_PROSPECTUS_URL []] LOCAL_SIGNED_PROSPECTUS_URL)
      LOCAL_SIGNED_PROSPECTUS_URL = none ∧
    read_string_none_if_empty
      (eraseKey [bytesEntry LOCAL_SIGNED_PROSPECTUS_URL []] LOCAL_SIGNED_PROSPECTUS_URL)
      LOCAL_SIGNED_PROSPECTUS_URL = .ok none :=
  c8_empty_is_absent [bytesEntry LOCAL_SIGNED_PROSPECTUS_URL []]
    LOCAL_SIGNED_PROSPECTUS_URL (Or.inl (by decide))

/-! ## Claim C9: per-value rendering of the diagnostic formatter -/

/-- C9: the formatter renders an integer-tagged value (tag 2) as its decimal
string, a bytes-tagged value (tag 1) as the address form exactly when the
bytes are 32 wide and as a `0x`-prefixed lowercase-hex literal otherwise,
and fails exactly when the tag is neither 1 nor 2. -/
theorem c9_value_to_str (v : TealValue) :
    (v.value_type = 2 → value_to_str v = .ok (.plain (decimalStr v.uint))) ∧
    (v.value_type = 1 → value_to_str v =
      .ok (if v.bytes.length = 32 then .addressForm v.bytes
           else .plain (to_hex_str v.bytes))) ∧
    ((value_to_str v).isOk = false ↔ v.value_type ≠ 1 ∧ v.value_type ≠ 2) := by
  obtain ⟨t, bs, u⟩ := v
  refine ⟨?_, ?_, ?_⟩
  · intro h
    simp only at h
    subst h
    rfl
  · intro h
    simp only at h
    subst h
    rfl
  · rcases t with _ | _ | _ | n
    · have hv : value_to_str ⟨0, bs, u⟩ = .error (.badValueType 0) := rfl
      simp [hv, isOk_error]
    · have hv : value_to_str ⟨1, bs, u⟩ =
          .ok (if bs.length = 32 then .addressForm bs else .plain (to_hex_str bs)) := rfl
      simp [hv, isOk_ok]
    · have hv : value_to_str ⟨2, bs, u⟩ = .ok (.plain (decimalStr u)) := rfl
      simp [hv, isOk_ok]
    · have hv : value_to_str ⟨n + 3, bs, u⟩ = .error (.badValueType (n + 3)) := rfl
      simp only [hv, isOk_error]
      constructor
      · intro _
        omega
      · intro _
        trivial

/-- Witness for C9: concrete renderings — the integer 1700000000 as its
decimal digits, a 2-byte value as a hex literal, a 32-byte value as the
address form, and failure of tag 3. -/
theorem c9_value_to_str_witness :
    value_to_str ⟨2, [], 1700000000⟩ = .ok (.plain (decimalStr 1700000000)) ∧
    value_to_str ⟨1, [0, 255], 0⟩ =
      .ok (if ([0, 255] : List Nat).length = 32 then .addressForm [0, 255]
           else .plain (to_hex_str [0, 255])) ∧
    ((value_to_str ⟨3, [], 0⟩).isOk = false ↔ (3 : Nat) ≠ 1 ∧ (3 : Nat) ≠ 2) :=
  ⟨(c9_value_to_str ⟨2, [], 1700000000⟩).1 rfl,
   (c9_value_to_str ⟨1, [0, 255], 0⟩).2.1 rfl,
   (c9_value_to_str ⟨3, [], 0⟩).2.2⟩

/-! ## Claim C6: the schema fingerprint matcher -/

/-- A local snapshot matching the Local fingerprint: correct declared
counts, six entries, all three required keys present. -/
def c6_base : ApplicationLocalState := mkLocal 1 2 3 [] [] []

/-- `c6_base` with the required `Shares` key renamed to an unrelated
string. -/
def c6_renamed : ApplicationLocalState :=
  ⟨⟨3, 3⟩,
   [bytesEntry LOCAL_SIGNED_PROSPECTUS_URL [],
    bytesEntry LOCAL_SIGNED_PROSPECTUS_HASH [],
    bytesEntry LOCAL_SIGNED_PROSPECTUS_TIMESTAMP [],
    uintEntry (strBytes "Unrelated") 1,
    uintEntry LOCAL_CLAIMED_TOTAL 2,
    uintEntry LOCAL_CLAIMED_INIT 3]⟩

/-- `c6_base` with only the declared slot-count metadata changed. -/
def c6_badSchema : ApplicationLocalState := ⟨⟨2, 3⟩, c6_base.key_value⟩

/-- C6: the matcher is a total boolean returning `true` exactly when the
declared schema has 3 byte slots and 3 integer slots, the physical entry
count is 6, and the three required keys are present; a matching snapshot
returns `true`, renaming one required key flips it to `false`, and changing
only the declared slot counts flips it to `false`. -/
theorem c6_matcher :
    (∀ s : ApplicationLocalState, matches_capi_local_state s = true ↔
      (s.schema.num_byte_slice = 3 ∧ s.schema.num_uint = 3 ∧
       s.key_value.length = 6 ∧
       containsKey s.key_value (to_teal_encoded_str LOCAL_CLAIMED_TOTAL) = true ∧
       containsKey s.key_value (to_teal_encoded_str LOCAL_CLAIMED_INIT) = true ∧
       containsKey s.key_value (to_teal_encoded_str LOCAL_SHARES) = true)) ∧
    matches_capi_local_state c6_base = true ∧
    matches_capi_local_state c6_renamed = false ∧
    matches_capi_local_state c6_badSchema = false := by
  refine ⟨fun s => ?_, by decide, by decide, by decide⟩
  unfold matches_capi_local_state
  by_cases h : s.schema.num_byte_slice = LOCAL_SCHEMA_NUM_BYTE_SLICES ∧
      s.schema.num_uint = LOCAL_SCHEMA_NUM_INTS ∧
      s.key_value.length = LOCAL_SCHEMA_NUM_BYTE_SLICES + LOCAL_SCHEMA_NUM_INTS
  · rw [if_neg (not_not_intro h)]
    obtain ⟨h1, h2, h3⟩ := h
    simp only [LOCAL_SCHEMA_NUM_BYTE_SLICES, LOCAL_SCHEMA_NUM_INTS] at h1 h2 h3
    simp [h1, h2, h3, Bool.and_eq_true, and_assoc]
  · rw [if_pos h]
    simp only [LOCAL_SCHEMA_NUM_BYTE_SLICES, LOCAL_SCHEMA_NUM_INTS] at h
    constructor
    · intro hf; cases hf
    · intro hr
      exact absurd ⟨hr.1, hr.2.1, by simpa using hr.2.2.1⟩ h

/-! ## Claim C7: big-endian timestamp decoding -/

theorem isEmpty_false_of_ne_nil {l : List Nat} (h : l ≠ []) : l.isEmpty = false := by
  cases l with
  | nil => exact absurd rfl h
  | cons a t => rfl

theorem ne_nil_of_isEmpty_false {l : List Nat} (h : l.isEmpty = false) : l ≠ [] := by
  cases l with
  | nil => exact absurd h (by decide)
  | cons a t => exact List.cons_ne_nil a t

/-- C7: in local decode with all three signed-prospectus fields set, an
8-byte acknowledgment-timestamp value decodes as the big-endian unsigned
integer of its bytes, a 7- or 9-byte value fails with the encoding error,
and the 8-byte big-endian encoding of 1700000000 decodes to exactly
1700000000. -/
theorem c7_timestamp (sharesAmt claimedT claimedI : Nat) (su sh t : List Nat)
    (hsuV : isValidUtf8 su = true) (hsuN : su ≠ [])
    (hshV : isValidUtf8 sh = true) (hshN : sh ≠ []) :
    (t.length = 8 →
      central_investor_state_from_local_state (mkLocal sharesAmt claimedT claimedI su sh t) =
        .ok ⟨sharesAmt, claimedT, claimedI, some ⟨sh, su, fromBE t⟩⟩) ∧
    (t.length = 7 ∨ t.length = 9 →
      central_investor_state_from_local_state (mkLocal sharesAmt claimedT claimedI su sh t) =
        .error (.timestampError t)) ∧
    central_investor_state_from_local_state
        (mkLocal sharesAmt claimedT claimedI su sh (beBytes 8 1700000000)) =
      .ok ⟨sharesAmt, claimedT, claimedI, some ⟨sh, su, 1700000000⟩⟩ := by
  have hsuE := isEmpty_false_of_ne_nil hsuN
  have hshE := isEmpty_false_of_ne_nil hshN
  have key : ∀ ts : List Nat, ts.isEmpty = false →
      central_investor_state_from_local_state (mkLocal sharesAmt claimedT claimedI su sh ts) =
      (if ts.length = 8 then
        .ok ⟨sharesAmt, claimedT, claimedI, some ⟨sh, su, fromBE ts⟩⟩
      else .error (.timestampError ts)) := by
    intro ts htsE
    rw [mkL_gate]
    simp only [central_investor_state_checked, mkL_shares, mkL_claimedT, mkL_claimedI,
      read_string_none_if_empty, mkL_su, mkL_sh, mkL_st, hsuE, hshE, htsE,
      Bool.false_eq_true, if_false, from_utf8, hsuV, hshV, if_true, ok_bind, pure_eq_ok]
    split
    · rfl
    · rfl
  refine ⟨?_, ?_, ?_⟩
  · intro h8
    have htE : t.isEmpty = false :=
      isEmpty_false_of_ne_nil (by intro hn; rw [hn] at h8; exact absurd h8 (by decide))
    rw [key t htE, if_pos h8]
  · intro h79
    have htE : t.isEmpty = false := by
      refine isEmpty_false_of_ne_nil ?_
      intro hn
      rw [hn] at h79
      rcases h79 with h | h <;> exact absurd h (by decide)
    have hne : ¬t.length = 8 := by rcases h79 with h | h <;> omega
    rw [key t htE, if_neg hne]
  · have hbE : (beBytes 8 1700000000).isEmpty = false :=
      isEmpty_false_of_ne_nil (beBytes_ne_nil 1700000000)
    rw [key _ hbE, if_pos (beBytes_length 8 1700000000),
      fromBE_beBytes 8 1700000000 (by decide)]

/-- Witness for C7: concrete successful decode of the 8-byte big-endian
encoding of 1700000000, and failure on a 7-byte value. -/
theorem c7_timestamp_witness :
    central_investor_state_from_local_state
        (mkLocal 1 2 3 (strBytes "u") (strBytes "h") (beBytes 8 1700000000)) =
      .ok ⟨1, 2, 3, some ⟨strBytes "h", strBytes "u", 1700000000⟩⟩ ∧
    central_investor_state_from_local_state
        (mkLocal 1 2 3 (strBytes "u") (strBytes "h") (beBytes 7 5)) =
      .error (.timestampError (beBytes 7 5)) :=
  ⟨(c7_timestamp 1 2 3 (strBytes "u") (strBytes "h") (beBytes 8 1700000000)
      (by decide) (by decide) (by decide) (by decide)).2.2,
   (c7_timestamp 1 2 3 (strBytes "u") (strBytes "h") (beBytes 7 5)
      (by decide) (by decide) (by decide) (by decide)).2.1
      (Or.inl (beBytes_length 7 5))⟩

/-! ## Claim C4: both-or-neither paired entities (prospectus, signed prospectus) -/

/-- C4: with the correct entry count and well-formed set values, the
prospectus entity (global) and the signed-prospectus entity (local) decode
to `none` when all constituent fields are not-set (here: empty), to `some`
when all are set, and any other combination fails the whole decode with the
inconsistent-pairing error for that entity. -/
theorem c4_paired_entities (recv avail fid sid price ishare locked target tend
      raisedAmt setup minI maxI sharesAmt claimedT claimedI : Nat)
    (creator pUrl pHash su sh ts : List Nat)
    (hishare : ishare ≤ 100)
    (hpuV : isValidUtf8 pUrl = true) (hphV : isValidUtf8 pHash = true)
    (hsuV : isValidUtf8 su = true) (hshV : isValidUtf8 sh = true)
    (hts8 : ts ≠ [] → ts.length = 8) :
    (pUrl = [] ∧ pHash = [] →
      dao_global_state (mkGlobalKVs recv avail fid sid (strBytes "N") [] price ishare 0
          [] (strBytes "s") (versionsToBytes 1 2) pUrl pHash locked target tend
          raisedAmt setup minI maxI []) creator =
        .ok ⟨recv, avail, 1, 2, fid, sid, strBytes "N", none, price, ishare, none,
          strBytes "s", none, creator, locked, target, tend, raisedAmt, setup,
          minI, maxI, none⟩) ∧
    (pUrl ≠ [] ∧ pHash ≠ [] →
      dao_global_state (mkGlobalKVs recv avail fid sid (strBytes "N") [] price ishare 0
          [] (strBytes "s") (versionsToBytes 1 2) pUrl pHash locked target tend
          raisedAmt setup minI maxI []) creator =
        .ok ⟨recv, avail, 1, 2, fid, sid, strBytes "N", none, price, ishare, none,
          strBytes "s", some ⟨pHash, pUrl⟩, creator, locked, target, tend, raisedAmt,
          setup, minI, maxI, none⟩) ∧
    (¬(pUrl = [] ↔ pHash = []) →
      dao_global_state (mkGlobalKVs recv avail fid sid (strBytes "N") [] price ishare 0
          [] (strBytes "s") (versionsToBytes 1 2) pUrl pHash locked target tend
          raisedAmt setup minI maxI []) creator =
        .error (.inconsistentPairing .prospectus)) ∧
    (su = [] ∧ sh = [] ∧ ts = [] →
      central_investor_state_from_local_state (mkLocal sharesAmt claimedT claimedI su sh ts) =
        .ok ⟨sharesAmt, claimedT, claimedI, none⟩) ∧
    (su ≠ [] ∧ sh ≠ [] ∧ ts ≠ [] →
      central_investor_state_from_local_state (mkLocal sharesAmt claimedT claimedI su sh ts) =
        .ok ⟨sharesAmt, claimedT, claimedI, some ⟨sh, su, fromBE ts⟩⟩) ∧
    (¬(su = [] ∧ sh = [] ∧ ts = []) ∧ ¬(su ≠ [] ∧ sh ≠ [] ∧ ts ≠ []) →
      central_investor_state_from_local_state (mkLocal sharesAmt claimedT claimedI su sh ts) =
        .error (.inconsistentPairing .signedProspectus)) := by
  have hN : isValidUtf8 (strBytes "N") = true := by decide
  have hs : isValidUtf8 (strBytes "s") = true := by decide
  have hv12 : bytes_to_versions (versionsToBytes 1 2) = .ok ⟨1, 2⟩ := by decide
  have gkey : ∀ pu ph : List Nat, isValidUtf8 pu = true → isValidUtf8 ph = true →
      dao_global_state (mkGlobalKVs recv avail fid sid (strBytes "N") [] price ishare 0
          [] (strBytes "s") (versionsToBytes 1 2) pu ph locked target tend
          raisedAmt setup minI maxI []) creator =
      (match (if pu.isEmpty then none else some pu),
             (if ph.isEmpty then none else some ph) with
        | some url, some hash => .ok (⟨recv, avail, 1, 2, fid, sid, strBytes "N", none,
            price, ishare, none, strBytes "s", some ⟨hash, url⟩, creator, locked, target,
            tend, raisedAmt, setup, minI, maxI, none⟩ : CentralAppGlobalState)
        | none, none => .ok ⟨recv, avail, 1, 2, fid, sid, strBytes "N", none, price,
            ishare, none, strBytes "s", none, creator, locked, target, tend, raisedAmt,
            setup, minI, maxI, none⟩
        | _, _ => .error (.inconsistentPairing .prospectus)) := by
    intro pu ph hpu hph
    rw [mkG_gate]
    simp only [dao_global_state_checked, mkG_received, mkG_available, mkG_funds_asset,
      mkG_shares_asset, mkG_name, mkG_price, mkG_ishare, mkG_imgAsset, mkG_imgUrl,
      mkG_social, mkG_versions, mkG_locked, mkG_target, mkG_tend, mkG_raised, mkG_setup,
      mkG_minI, mkG_maxI, mkG_desc, mkG_pUrl, mkG_pHash, mkG_team,
      read_string_none_if_empty, from_utf8, hN, hs, hv12, sharesPercentageTryFrom,
      hishare, if_true, List.isEmpty_nil, ok_bind, pure_eq_ok, error_bind]
    cases hpuE : pu.isEmpty with
    | true =>
      cases hphE : ph.isEmpty with
      | true => simp [hpu, hph, hpuE, hphE, ok_bind, pure_eq_ok, error_bind]
      | false => simp [hpu, hph, hpuE, hphE, ok_bind, pure_eq_ok, error_bind]
    | false =>
      cases hphE : ph.isEmpty with
      | true => simp [hpu, hph, hpuE, hphE, ok_bind, pure_eq_ok, error_bind]
      | false => simp [hpu, hph, hpuE, hphE, ok_bind, pure_eq_ok, error_bind]
  have lkey : ∀ u h t : List Nat, isValidUtf8 u = true → isValidUtf8 h = true →
      central_investor_state_from_local_state (mkLocal sharesAmt claimedT claimedI u h t) =
      (match (if u.isEmpty then none else some u), (if h.isEmpty then none else some h),
             (if t.isEmpty then none else some t) with
        | some url, some hash, some timestamp =>
          if timestamp.length = 8 then
            .ok (⟨sharesAmt, claimedT, claimedI,
              some ⟨hash, url, fromBE timestamp⟩⟩ : CentralAppInvestorState)
          else .error (.timestampError timestamp)
        | none, none, none => .ok ⟨sharesAmt, claimedT, claimedI, none⟩
        | _, _, _ => .error (.inconsistentPairing .signedProspectus)) := by
    intro u h t hu hh
    rw [mkL_gate]
    simp only [central_investor_state_checked, mkL_shares, mkL_claimedT, mkL_claimedI,
      read_string_none_if_empty, mkL_su, mkL_sh, mkL_st, from_utf8, hu, hh, if_true,
      ok_bind, pure_eq_ok]
    cases huE : u.isEmpty <;> cases hhE : h.isEmpty <;> cases htE : t.isEmpty <;>
      simp only [hu, hh, huE, hhE, htE, Bool.false_eq_true, if_false, if_true,
        ok_bind, pure_eq_ok, error_bind] <;>
      first
      | rfl
      | (rcases Decidable.em (t.length = 8) with h8 | h8 <;>
          simp [h8, ok_bind, pure_eq_ok, error_bind])
  refine ⟨?_, ?_, ?_, ?_, ?_, ?_⟩
  · rintro ⟨h1, h2⟩
    rw [gkey pUrl pHash hpuV hphV]
    subst h1
    subst h2
    rfl
  · rintro ⟨h1, h2⟩
    rw [gkey pUrl pHash hpuV hphV]
    simp [isEmpty_false_of_ne_nil h1, isEmpty_false_of_ne_nil h2]
  · intro hmix
    rw [gkey pUrl pHash hpuV hphV]
    rcases Decidable.em (pUrl = []) with h1 | h1
    · have h2 : pHash ≠ [] := fun hc => hmix (by simp [h1, hc])
      subst h1
      simp [isEmpty_false_of_ne_nil h2]
    · have h2 : pHash = [] := by
        by_contra hc
        exact hmix (by constructor <;> intro h <;> [exact absurd h h1; exact absurd h hc])
      subst h2
      simp [isEmpty_false_of_ne_nil h1]
  · rintro ⟨h1, h2, h3⟩
    rw [lkey su sh ts hsuV hshV]
    subst h1
    subst h2
    subst h3
    rfl
  · rintro ⟨h1, h2, h3⟩
    rw [lkey su sh ts hsuV hshV]
    simp [isEmpty_false_of_ne_nil h1, isEmpty_false_of_ne_nil h2,
      isEmpty_false_of_ne_nil h3, hts8 h3]
  · rintro ⟨hnall, hnset⟩
    rw [lkey su sh ts hsuV hshV]
    rcases Decidable.em (su = []) with h1 | h1 <;> rcases Decidable.em (sh = []) with h2 | h2 <;>
      rcases Decidable.em (ts = []) with h3 | h3
    · exact absurd ⟨h1, h2, h3⟩ hnall
    · subst h1; subst h2
      simp [isEmpty_false_of_ne_nil h3]
    · subst h1; subst h3
      simp [isEmpty_false_of_ne_nil h2]
    · subst h1
      simp [isEmpty_false_of_ne_nil h2, isEmpty_false_of_ne_nil h3]
    · subst h2; subst h3
      simp [isEmpty_false_of_ne_nil h1]
    · subst h2
      simp [isEmpty_false_of_ne_nil h1, isEmpty_false_of_ne_nil h3]
    · subst h3
      simp [isEmpty_false_of_ne_nil h1, isEmpty_false_of_ne_nil h2]
    · exact absurd ⟨h1, h2, h3⟩ hnset

/-- Witness for C4: a concrete global snapshot with both prospectus fields
set decodes to `some`, and a concrete local snapshot with all three
signed-prospectus fields empty decodes to `none`. -/
theorem c4_paired_entities_witness :
    dao_global_state (mkGlobalKVs 1 2 3 4 (strBytes "N") [] 5 10 0 [] (strBytes "s")
        (versionsToBytes 1 2) (strBytes "pu") (strBytes "ph") 6 7 8 9 11 12 13 []) [] =
      .ok ⟨1, 2, 1, 2, 3, 4, strBytes "N", none, 5, 10, none, strBytes "s",
        some ⟨strBytes "ph", strBytes "pu"⟩, [], 6, 7, 8, 9, 11, 12, 13, none⟩ ∧
    central_investor_state_from_local_state (mkLocal 14 15 16 [] [] []) =
      .ok ⟨14, 15, 16, none⟩ :=
  ⟨(c4_paired_entities 1 2 3 4 5 10 6 7 8 9 11 12 13 14 15 16 [] (strBytes "pu")
      (strBytes "ph") [] [] [] (by decide) (by decide) (by decide) (by decide) (by decide)
      (fun hn => absurd rfl hn)).2.1 ⟨by decide, by decide⟩,
   (c4_paired_entities 1 2 3 4 5 10 6 7 8 9 11 12 13 14 15 16 [] (strBytes "pu")
      (strBytes "ph") [] [] [] (by decide) (by decide) (by decide) (by decide) (by decide)
      (fun hn => absurd rfl hn)).2.2.2.1 ⟨rfl, rfl, rfl⟩⟩

/-! ## Claim C2: the image entity pairing -/

/-- A 22-entry global snapshot, all fields valid, with the image asset-id
set to 5 (non-default) while the image URL is present but empty. -/
def c2_gs : List TealKeyValue := mkGlobalKVs 1 2 3 4 (strBytes "N") [] 5 10 5 []
  (strBytes "s") (versionsToBytes 1 2) [] [] 6 7 8 9 11 12 13 []

/-- Counterexample to C2 as stated: with the correct entry count, asset-id 5
(set, non-default) and an empty image URL, the decode does NOT fail with an
inconsistent-pairing error — it succeeds, producing the image entity
`some ⟨5, ""⟩` (the all-default guard only catches asset-id 0 with empty
URL). -/
theorem c2_counterexample :
    c2_gs.length = 22 ∧
    dao_global_state c2_gs [] =
      .ok ⟨1, 2, 1, 2, 3, 4, strBytes "N", none, 5, 10, some ⟨5, []⟩, strBytes "s",
        none, [], 6, 7, 8, 9, 11, 12, 13, none⟩ := by decide

/-- A 22-entry global snapshot with the image asset-id key present but the
image URL key absent (a filler key keeps the count at 22). -/
def c2_gs_noUrl : List TealKeyValue :=
  [bytesEntry GLOBAL_DAO_NAME (strBytes "N"),
   bytesEntry GLOBAL_DAO_DESC [],
   bytesEntry GLOBAL_SOCIAL_MEDIA_URL (strBytes "s"),
   bytesEntry GLOBAL_VERSIONS (versionsToBytes 1 2),
   bytesEntry (strBytes "Filler") [],
   bytesEntry GLOBAL_PROSPECTUS_URL [],
   bytesEntry GLOBAL_PROSPECTUS_HASH [],
   bytesEntry GLOBAL_TEAM_URL [],
   uintEntry GLOBAL_TOTAL_RECEIVED 1,
   uintEntry GLOBAL_WITHDRAWABLE_AMOUNT 2,
   uintEntry GLOBAL_FUNDS_ASSET_ID 3,
   uintEntry GLOBAL_SHARES_ASSET_ID 4,
   uintEntry GLOBAL_SHARE_PRICE 5,
   uintEntry GLOBAL_INVESTORS_SHARE 10,
   uintEntry GLOBAL_IMAGE_ASSET_ID 5,
   uintEntry GLOBAL_SHARES_LOCKED 6,
   uintEntry GLOBAL_TARGET 7,
   uintEntry GLOBAL_TARGET_END_DATE 8,
   uintEntry GLOBAL_RAISED 9,
   uintEntry GLOBAL_SETUP_DATE 11,
   uintEntry GLOBAL_MIN_INVEST_AMOUNT 12,
   uintEntry GLOBAL_MAX_INVEST_AMOUNT 13]

/-- As `c2_gs_noUrl`, but with the image URL key present (empty value) and
the image asset-id key absent. -/
def c2_gs_noAsset : List TealKeyValue :=
  [bytesEntry GLOBAL_DAO_NAME (strBytes "N"),
   bytesEntry GLOBAL_DAO_DESC [],
   bytesEntry GLOBAL_SOCIAL_MEDIA_URL (strBytes "s"),
   bytesEntry GLOBAL_VERSIONS (versionsToBytes 1 2),
   bytesEntry GLOBAL_IMAGE_URL [],
   bytesEntry GLOBAL_PROSPECTUS_URL [],
   bytesEntry GLOBAL_PROSPECTUS_HASH [],
   bytesEntry GLOBAL_TEAM_URL [],
   uintEntry GLOBAL_TOTAL_RECEIVED 1,
   uintEntry GLOBAL_WITHDRAWABLE_AMOUNT 2,
   uintEntry GLOBAL_FUNDS_ASSET_ID 3,
   uintEntry GLOBAL_SHARES_ASSET_ID 4,
   uintEntry GLOBAL_SHARE_PRICE 5,
   uintEntry GLOBAL_INVESTORS_SHARE 10,
   uintEntry (strBytes "Filler") 5,
   uintEntry GLOBAL_SHARES_LOCKED 6,
   uintEntry GLOBAL_TARGET 7,
   uintEntry GLOBAL_TARGET_END_DATE 8,
   uintEntry GLOBAL_RAISED 9,
   uintEntry GLOBAL_SETUP_DATE 11,
   uintEntry GLOBAL_MIN_INVEST_AMOUNT 12,
   uintEntry GLOBAL_MAX_INVEST_AMOUNT 13]

/-- C2, amended: in global decode with the correct entry count and both
image keys present, a snapshot with asset-id 0 and empty URL (the
defaults) decodes to `none`; any other combination of present values —
including a non-default asset-id with an empty URL, or asset-id 0 with a
non-empty URL — decodes to `some` image entity with exactly those values;
the inconsistent-pairing error arises when one image key is present and
the other absent. -/
theorem c2_image_pairing (recv avail fid sid price ishare locked target tend
      raisedAmt setup minI maxI : Nat) (creator u : List Nat) (a : Nat)
    (hishare : ishare ≤ 100) (huV : isValidUtf8 u = true) :
    (a = 0 ∧ u = [] →
      dao_global_state (mkGlobalKVs recv avail fid sid (strBytes "N") [] price ishare a
          u (strBytes "s") (versionsToBytes 1 2) [] [] locked target tend raisedAmt
          setup minI maxI []) creator =
        .ok ⟨recv, avail, 1, 2, fid, sid, strBytes "N", none, price, ishare, none,
          strBytes "s", none, creator, locked, target, tend, raisedAmt, setup,
          minI, maxI, none⟩) ∧
    (¬(a = 0 ∧ u = []) →
      dao_global_state (mkGlobalKVs recv avail fid sid (strBytes "N") [] price ishare a
          u (strBytes "s") (versionsToBytes 1 2) [] [] locked target tend raisedAmt
          setup minI maxI []) creator =
        .ok ⟨recv, avail, 1, 2, fid, sid, strBytes "N", none, price, ishare,
          some ⟨a, u⟩, strBytes "s", none, creator, locked, target, tend, raisedAmt,
          setup, minI, maxI, none⟩) ∧
    dao_global_state c2_gs_noUrl [] = .error (.inconsistentPairing .image) ∧
    dao_global_state c2_gs_noAsset [] = .error (.inconsistentPairing .image) := by
  have hN : isValidUtf8 (strBytes "N") = true := by decide
  have hs : isValidUtf8 (strBytes "s") = true := by decide
  have hv12 : bytes_to_versions (versionsToBytes 1 2) = .ok ⟨1, 2⟩ := by decide
  refine ⟨?_, ?_, by decide, by decide⟩ <;>
    (intro hc
     rw [mkG_gate]
     simp only [dao_global_state_checked, mkG_received, mkG_available, mkG_funds_asset,
       mkG_shares_asset, mkG_name, mkG_price, mkG_ishare, mkG_imgAsset, mkG_imgUrl,
       mkG_social, mkG_versions, mkG_locked, mkG_target, mkG_tend, mkG_raised, mkG_setup,
       mkG_minI, mkG_maxI, mkG_desc, mkG_pUrl, mkG_pHash, mkG_team,
       read_string_none_if_empty, from_utf8, hN, hs, hv12, sharesPercentageTryFrom,
       hishare, if_true, List.isEmpty_nil, ok_bind, pure_eq_ok, error_bind]
     simp [hc, huV, ok_bind, pure_eq_ok, error_bind])

/-- Witness for C2 (amended): concrete instances — both keys at defaults
decode to no image entity; asset-id 7 with URL "u" decodes to that
entity. -/
theorem c2_image_pairing_witness :
    dao_global_state (mkGlobalKVs 1 2 3 4 (strBytes "N") [] 5 10 0
        [] (strBytes "s") (versionsToBytes 1 2) [] [] 6 7 8 9 11 12 13 []) [] =
      .ok ⟨1, 2, 1, 2, 3, 4, strBytes "N", none, 5, 10, none, strBytes "s", none,
        [], 6, 7, 8, 9, 11, 12, 13, none⟩ ∧
    dao_global_state (mkGlobalKVs 1 2 3 4 (strBytes "N") [] 5 10 7
        (strBytes "u") (strBytes "s") (versionsToBytes 1 2) [] [] 6 7 8 9 11 12 13 []) [] =
      .ok ⟨1, 2, 1, 2, 3, 4, strBytes "N", none, 5, 10, some ⟨7, strBytes "u"⟩,
        strBytes "s", none, [], 6, 7, 8, 9, 11, 12, 13, none⟩ :=
  ⟨(c2_image_pairing 1 2 3 4 5 10 6 7 8 9 11 12 13 [] [] 0 (by decide) (by decide)).1
      ⟨rfl, rfl⟩,
   (c2_image_pairing 1 2 3 4 5 10 6 7 8 9 11 12 13 [] (strBytes "u") 7 (by decide)
      (by decide)).2.1 (by simp)⟩

/-! ## Claim C3: encode/decode round trip -/

/-- Reading an optional-string slot that stores the encoding of option `o`
(empty sentinel for `none`) recovers exactly `o`, when a set value is
non-empty valid UTF-8. -/
theorem read_string_of_opt (gs : List TealKeyValue) (key : List Nat)
    (o : Option (List Nat))
    (hfind : read_bytes_none_if_empty gs key =
      if (optBytes o).isEmpty = true then none else some (optBytes o))
    (ho : optStrSet o = true) :
    read_string_none_if_empty gs key = .ok o := by
  rcases o with _ | s
  · simp [read_string_none_if_empty, hfind, optBytes]
  · simp only [optStrSet, Bool.and_eq_true, Bool.not_eq_true'] at ho
    obtain ⟨hV, hE⟩ := ho
    simp [read_string_none_if_empty, hfind, optBytes, hE, from_utf8, hV]

/-- C3: round trip — for every valid domain record, encoding every declared
field of its schema into a synthetic snapshot and decoding it back (with,
for Global, the same owner supplied alongside) yields the original record,
for both the Global and the Local schema. -/
theorem c3_roundtrip :
    (∀ r : CentralAppGlobalState, validGlobal r = true →
      dao_global_state (encodeGlobal r) r.owner = .ok r) ∧
    (∀ r : CentralAppInvestorState, validLocal r = true →
      central_investor_state_from_local_state (encodeLocal r) = .ok r) := by
  constructor
  · intro r hv
    obtain ⟨recv, avail, va, vc, fid, sid, name, desc, price, ishare, img, social,
      prosp, own, locked, target, tend, raisedAmt, setup, minI, maxI, team⟩ := r
    simp only [validGlobal, Bool.and_eq_true, decide_eq_true_eq, and_assoc] at hv
    obtain ⟨hname, hsocial, hdesc, hteam, himgB, hprospB, hish, hva, hvc⟩ := hv
    have hu2 : optStrSet (prosp.map Prospectus.url) = true := by
      rcases prosp with _ | p
      · rfl
      · simp only [Bool.and_eq_true, Bool.not_eq_true', and_assoc] at hprospB
        simp [optStrSet, Option.map, hprospB.1, hprospB.2.2.1]
    have hh2 : optStrSet (prosp.map Prospectus.hash) = true := by
      rcases prosp with _ | p
      · rfl
      · simp only [Bool.and_eq_true, Bool.not_eq_true', and_assoc] at hprospB
        simp [optStrSet, Option.map, hprospB.2.1, hprospB.2.2.2]
    have henc : encodeGlobal ⟨recv, avail, va, vc, fid, sid, name, desc, price, ishare,
        img, social, prosp, own, locked, target, tend, raisedAmt, setup, minI, maxI,
        team⟩ =
        mkGlobalKVs recv avail fid sid name (optBytes desc) price ishare
          ((img.map Nft.asset_id).getD 0) (optBytes (img.map Nft.url)) social
          (versionsToBytes va vc) (optBytes (prosp.map Prospectus.url))
          (optBytes (prosp.map Prospectus.hash)) locked target tend raisedAmt setup
          minI maxI (optBytes team) := rfl
    rw [henc, mkG_gate]
    set G := mkGlobalKVs recv avail fid sid name (optBytes desc) price ishare
      ((img.map Nft.asset_id).getD 0) (optBytes (img.map Nft.url)) social
      (versionsToBytes va vc) (optBytes (prosp.map Prospectus.url))
      (optBytes (prosp.map Prospectus.hash)) locked target tend raisedAmt setup
      minI maxI (optBytes team) with hG
    have hvv := bytes_to_versions_versionsToBytes va vc hva hvc
    have h01 : get_int_or_err GLOBAL_TOTAL_RECEIVED G = .ok recv := by rw [hG]; rfl
    have h02 : get_int_or_err GLOBAL_WITHDRAWABLE_AMOUNT G = .ok avail := by rw [hG]; rfl
    have h03 : get_int_or_err GLOBAL_FUNDS_ASSET_ID G = .ok fid := by rw [hG]; rfl
    have h04 : get_int_or_err GLOBAL_SHARES_ASSET_ID G = .ok sid := by rw [hG]; rfl
    have h05 : get_bytes_or_err GLOBAL_DAO_NAME G = .ok name := by rw [hG]; rfl
    have h06 : read_string_none_if_empty G GLOBAL_DAO_DESC = .ok desc :=
      read_string_of_opt _ _ _ (by rw [hG]; rfl) hdesc
    have h07 : get_int_or_err GLOBAL_SHARE_PRICE G = .ok price := by rw [hG]; rfl
    have h08 : get_int_or_err GLOBAL_INVESTORS_SHARE G = .ok ishare := by rw [hG]; rfl
    have h09 : find_uint G GLOBAL_IMAGE_ASSET_ID =
        some ((img.map Nft.asset_id).getD 0) := by rw [hG]; rfl
    have h10 : find_bytes G GLOBAL_IMAGE_URL =
        some (optBytes (img.map Nft.url)) := by rw [hG]; rfl
    have h11 : read_string_none_if_empty G GLOBAL_PROSPECTUS_URL =
        .ok (prosp.map Prospectus.url) := read_string_of_opt _ _ _ (by rw [hG]; rfl) hu2
    have h12 : read_string_none_if_empty G GLOBAL_PROSPECTUS_HASH =
        .ok (prosp.map Prospectus.hash) := read_string_of_opt _ _ _ (by rw [hG]; rfl) hh2
    have h13 : get_bytes_or_err GLOBAL_SOCIAL_MEDIA_URL G = .ok social := by rw [hG]; rfl
    have h14 : get_bytes_or_err GLOBAL_VERSIONS G = .ok (versionsToBytes va vc) := by
      rw [hG]; rfl
    have h15 : get_int_or_err GLOBAL_SHARES_LOCKED G = .ok locked := by rw [hG]; rfl
    have h16 : get_int_or_err GLOBAL_TARGET G = .ok target := by rw [hG]; rfl
    have h17 : get_int_or_err GLOBAL_TARGET_END_DATE G = .ok tend := by rw [hG]; rfl
    have h18 : get_int_or_err GLOBAL_RAISED G = .ok raisedAmt := by rw [hG]; rfl
    have h19 : get_int_or_err GLOBAL_SETUP_DATE G = .ok setup := by rw [hG]; rfl
    have h20 : get_int_or_err GLOBAL_MIN_INVEST_AMOUNT G = .ok minI := by rw [hG]; rfl
    have h21 : get_int_or_err GLOBAL_MAX_INVEST_AMOUNT G = .ok maxI := by rw [hG]; rfl
    have h22 : read_string_none_if_empty G GLOBAL_TEAM_URL = .ok team :=
      read_string_of_opt _ _ _ (by rw [hG]; rfl) hteam
    simp only [dao_global_state_checked, h01, h02, h03, h04, h05, h06, h07, h08, h09,
      h10, h11, h12, h13, h14, h15, h16, h17, h18, h19, h20, h21, h22, from_utf8,
      hname, hsocial, if_true, sharesPercentageTryFrom, hish, hvv, ok_bind,
      pure_eq_ok, error_bind]
    rcases img with _ | ⟨ia, iu⟩ <;> rcases prosp with _ | ⟨ph2, pu2⟩
    · simp [optBytes, ok_bind, pure_eq_ok]
    · simp [optBytes, ok_bind, pure_eq_ok]
    · simp only [Bool.and_eq_true, Bool.not_eq_true'] at himgB
      obtain ⟨hiuV, hgB⟩ := himgB
      have hg : ¬(ia = 0 ∧ iu = []) := by
        rintro ⟨h0, hnil⟩
        subst h0
        subst hnil
        simp at hgB
      simp [optBytes, hg, from_utf8, hiuV, ok_bind, pure_eq_ok]
    · simp only [Bool.and_eq_true, Bool.not_eq_true'] at himgB
      obtain ⟨hiuV, hgB⟩ := himgB
      have hg : ¬(ia = 0 ∧ iu = []) := by
        rintro ⟨h0, hnil⟩
        subst h0
        subst hnil
        simp at hgB
      simp [optBytes, hg, from_utf8, hiuV, ok_bind, pure_eq_ok]
  · intro r hv
    obtain ⟨shr, clm, cli, sp⟩ := r
    simp only [validLocal] at hv
    have henc : encodeLocal ⟨shr, clm, cli, sp⟩ = mkLocal shr clm cli
        (optBytes (sp.map SignedProspectus.url))
        (optBytes (sp.map SignedProspectus.hash))
        ((sp.map (fun s => beBytes 8 s.timestamp)).getD []) := rfl
    rw [henc, mkL_gate]
    rcases sp with _ | s
    · simp [central_investor_state_checked, mkL_shares, mkL_claimedT, mkL_claimedI,
        read_string_none_if_empty, mkL_su, mkL_sh, mkL_st, optBytes, ok_bind,
        pure_eq_ok]
    · obtain ⟨sh2, su2, st2⟩ := s
      simp only [Bool.and_eq_true, Bool.not_eq_true', decide_eq_true_eq, and_assoc]
        at hv
      obtain ⟨hsU, hsH, hsUE, hsHE, hsT⟩ := hv
      have hsu2 : su2 ≠ [] := ne_nil_of_isEmpty_false hsUE
      have hsh2 : sh2 ≠ [] := ne_nil_of_isEmpty_false hsHE
      simp [central_investor_state_checked, mkL_shares, mkL_claimedT, mkL_claimedI,
        read_string_none_if_empty, mkL_su, mkL_sh, mkL_st, optBytes, from_utf8,
        hsU, hsH, hsu2, hsh2, beBytes_ne_nil st2, beBytes_length,
        fromBE_beBytes 8 st2 hsT, ok_bind, pure_eq_ok]

/-- Witness for C3: a concrete valid global record (all optional entities
set) and a concrete valid local record survive the round trip. -/
theorem c3_roundtrip_witness :
    validGlobal ⟨1, 2, 3, 4, 5, 6, strBytes "N", some (strBytes "d"), 7, 10,
      some ⟨9, strBytes "iu"⟩, strBytes "s", some ⟨strBytes "ph", strBytes "pu"⟩,
      strBytes "own", 11, 12, 13, 14, 15, 16, 17, some (strBytes "t")⟩ = true ∧
    dao_global_state
      (encodeGlobal ⟨1, 2, 3, 4, 5, 6, strBytes "N", some (strBytes "d"), 7, 10,
        some ⟨9, strBytes "iu"⟩, strBytes "s", some ⟨strBytes "ph", strBytes "pu"⟩,
        strBytes "own", 11, 12, 13, 14, 15, 16, 17, some (strBytes "t")⟩)
      (strBytes "own") =
      .ok ⟨1, 2, 3, 4, 5, 6, strBytes "N", some (strBytes "d"), 7, 10,
        some ⟨9, strBytes "iu"⟩, strBytes "s", some ⟨strBytes "ph", strBytes "pu"⟩,
        strBytes "own", 11, 12, 13, 14, 15, 16, 17, some (strBytes "t")⟩ ∧
    validLocal ⟨21, 22, 23, some ⟨strBytes "h", strBytes "u", 1700000000⟩⟩ = true ∧
    central_investor_state_from_local_state
      (encodeLocal ⟨21, 22, 23, some ⟨strBytes "h", strBytes "u", 1700000000⟩⟩) =
      .ok ⟨21, 22, 23, some ⟨strBytes "h", strBytes "u", 1700000000⟩⟩ :=
  ⟨by decide,
   c3_roundtrip.1 ⟨1, 2, 3, 4, 5, 6, strBytes "N", some (strBytes "d"), 7, 10,
      some ⟨9, strBytes "iu"⟩, strBytes "s", some ⟨strBytes "ph", strBytes "pu"⟩,
      strBytes "own", 11, 12, 13, 14, 15, 16, 17, some (strBytes "t")⟩ (by decide),
   by decide,
   c3_roundtrip.2 ⟨21, 22, 23, some ⟨strBytes "h", strBytes "u", 1700000000⟩⟩
     (by decide)⟩

/-! ## Claim C10: required textual fields accept the empty value -/

/-- C10: a required byte-string field present with a zero-length value is
returned successfully by `get_bytes_or_err` (emptiness is not absence for
required fields), the empty value is valid text, and a full global snapshot
with empty project name and empty social media URL decodes successfully to
a record carrying the empty strings. -/
theorem c10_required_empty_ok (gs : List TealKeyValue) (k : List Nat)
    (h : find_bytes gs k = some []) :
    get_bytes_or_err k gs = .ok [] ∧
    (get_bytes_or_err k gs >>= from_utf8) = .ok [] ∧
    dao_global_state (mkGlobalKVs 1 2 3 4 [] [] 5 10 0 [] [] (versionsToBytes 1 2)
        [] [] 6 7 8 9 11 12 13 []) [] =
      .ok ⟨1, 2, 1, 2, 3, 4, [], none, 5, 10, none, [], none, [], 6, 7, 8, 9, 11,
        12, 13, none⟩ := by
  have hge : get_bytes_or_err k gs = .ok [] := by simp [get_bytes_or_err, h]
  refine ⟨hge, ?_, by decide⟩
  rw [hge, ok_bind]
  rfl

/-- Witness for C10: the project-name key present with an empty value. -/
theorem c10_required_empty_ok_witness :
    get_bytes_or_err GLOBAL_DAO_NAME [bytesEntry GLOBAL_DAO_NAME []] = .ok [] ∧
    (get_bytes_or_err GLOBAL_DAO_NAME [bytesEntry GLOBAL_DAO_NAME []] >>= from_utf8) =
      .ok [] :=
  ⟨(c10_required_empty_ok [bytesEntry GLOBAL_DAO_NAME []] GLOBAL_DAO_NAME
      (by decide)).1,
   (c10_required_empty_ok [bytesEntry GLOBAL_DAO_NAME []] GLOBAL_DAO_NAME
      (by decide)).2.1⟩

/-! ## Claims C1 and C5: the length gate and its diagnostic dump -/

/-- A one-entry global snapshot whose single value carries the unrecognized
kind tag 3 (the key is well-formed). -/
def c1_gs : List TealKeyValue := [⟨to_teal_encoded_str (strBytes "A"), ⟨3, [], 0⟩⟩]

/-- Counterexample to C1 as stated: on this snapshot of wrong entry count
the decode does return an error, but not the schema-mismatch one — the
diagnostic dump fails first (unrecognized value tag 3) and its error is
propagated by the `?` on `print_state`. -/
theorem c1_counterexample :
    c1_gs.length = 1 ∧
    dao_global_state c1_gs [] = .error (.diagnostic (.badValueType 3)) ∧
    dao_global_state c1_gs [] ≠ .error (.schemaMismatch 1 22) := by decide

/-- C1, amended: for every global snapshot whose entry count differs from
22, `dao_global_state` returns an error and never a record — the
schema-mismatch error whenever the diagnostic dump succeeds; likewise every
local snapshot with entry count different from 6 makes
`central_investor_state_from_local_state` return an error and never a
record. -/
theorem c1_length_gate_errors :
    (∀ (gs : List TealKeyValue) (creator : List Nat), gs.length ≠ 22 →
      (dao_global_state gs creator).isOk = false ∧
      (∀ m, print_state gs = .ok m →
        dao_global_state gs creator = .error (.schemaMismatch gs.length 22))) ∧
    (∀ s : ApplicationLocalState, s.key_value.length ≠ 6 →
      (central_investor_state_from_local_state s).isOk = false ∧
      (∀ m, print_state s.key_value = .ok m →
        central_investor_state_from_local_state s =
          .error (.localSchemaMismatch s.key_value.length))) := by
  constructor
  · intro gs creator hlen
    have hcond : gs.length ≠ GLOBAL_SCHEMA_NUM_BYTE_SLICES + GLOBAL_SCHEMA_NUM_INTS := by
      simpa [GLOBAL_SCHEMA_NUM_BYTE_SLICES, GLOBAL_SCHEMA_NUM_INTS] using hlen
    constructor
    · unfold dao_global_state
      rw [if_pos hcond]
      rcases hps : print_state gs with m | e <;> simp [isOk_error]
    · intro m hm
      unfold dao_global_state
      rw [if_pos hcond, hm]
      rfl
  · intro s hlen
    have hcond : s.key_value.length ≠ LOCAL_SCHEMA_NUM_BYTE_SLICES + LOCAL_SCHEMA_NUM_INTS := by
      simpa [LOCAL_SCHEMA_NUM_BYTE_SLICES, LOCAL_SCHEMA_NUM_INTS] using hlen
    constructor
    · unfold central_investor_state_from_local_state
      rw [if_pos hcond]
      rcases hps : print_state s.key_value with m | e <;> simp [isOk_error]
    · intro m hm
      unfold central_investor_state_from_local_state
      rw [if_pos hcond, hm]

/-- Witness for C1 (amended): the empty snapshots fail with the
schema-mismatch errors (their diagnostic dumps succeed trivially). -/
theorem c1_length_gate_errors_witness :
    (dao_global_state [] []).isOk = false ∧
    dao_global_state [] [] = .error (.schemaMismatch 0 22) ∧
    (central_investor_state_from_local_state ⟨⟨3, 3⟩, []⟩).isOk = false ∧
    central_investor_state_from_local_state ⟨⟨3, 3⟩, []⟩ =
      .error (.localSchemaMismatch 0) :=
  ⟨(c1_length_gate_errors.1 [] [] (by decide)).1,
   (c1_length_gate_errors.1 [] [] (by decide)).2 [] (by decide),
   (c1_length_gate_errors.2 ⟨⟨3, 3⟩, []⟩ (by decide)).1,
   (c1_length_gate_errors.2 ⟨⟨3, 3⟩, []⟩ (by decide)).2 [] (by decide)⟩

/-- A one-entry local snapshot whose single value carries the unrecognized
kind tag 7. -/
def c5_ls : ApplicationLocalState :=
  ⟨⟨3, 3⟩, [⟨to_teal_encoded_str (strBytes "B"), ⟨7, [], 0⟩⟩]⟩

/-- Counterexample to C5 as stated: on the length-gate failure path a
diagnostic-formatter failure DOES replace the schema-mismatch error — here
the local decode returns the (wrapped) formatter error for the
unrecognized value tag 7, not the schema-mismatch error. -/
theorem c5_counterexample :
    c5_ls.key_value.length = 1 ∧
    central_investor_state_from_local_state c5_ls =
      .error (.localDiagnostic (.badValueType 7)) ∧
    central_investor_state_from_local_state c5_ls ≠
      .error (.localSchemaMismatch 1) := by decide

/-- C5, amended: on the length-gate failure path an error is always
returned, and which one is decided by the diagnostic formatter: the
schema-mismatch error exactly when the dump succeeds; when the dump fails,
its error replaces the schema-mismatch result (returned as-is by the
global decode, wrapped in a printing-error message by the local one). -/
theorem c5_diagnostic_masking :
    (∀ (gs : List TealKeyValue) (creator : List Nat), gs.length ≠ 22 →
      dao_global_state gs creator =
        (match print_state gs with
         | .ok _ => .error (.schemaMismatch gs.length 22)
         | .error e => .error (.diagnostic e))) ∧
    (∀ s : ApplicationLocalState, s.key_value.length ≠ 6 →
      central_investor_state_from_local_state s =
        (match print_state s.key_value with
         | .ok _ => .error (.localSchemaMismatch s.key_value.length)
         | .error e => .error (.localDiagnostic e))) := by
  constructor
  · intro gs creator hlen
    have hcond : gs.length ≠ GLOBAL_SCHEMA_NUM_BYTE_SLICES + GLOBAL_SCHEMA_NUM_INTS := by
      simpa [GLOBAL_SCHEMA_NUM_BYTE_SLICES, GLOBAL_SCHEMA_NUM_INTS] using hlen
    unfold dao_global_state
    rw [if_pos hcond]
    rcases hps : print_state gs with m | e <;> rfl
  · intro s hlen
    have hcond : s.key_value.length ≠ LOCAL_SCHEMA_NUM_BYTE_SLICES + LOCAL_SCHEMA_NUM_INTS := by
      simpa [LOCAL_SCHEMA_NUM_BYTE_SLICES, LOCAL_SCHEMA_NUM_INTS] using hlen
    unfold central_investor_state_from_local_state
    rw [if_pos hcond]

/-- Witness for C5 (amended): a global snapshot with a bad value tag and
wrong count returns the propagated formatter error; one with well-formed
entries but wrong count returns the schema-mismatch error. -/
theorem c5_diagnostic_masking_witness :
    dao_global_state [⟨to_teal_encoded_str (strBytes "A"), ⟨9, [], 0⟩⟩] [] =
      .error (.diagnostic (.badValueType 9)) ∧
    dao_global_state [⟨to_teal_encoded_str (strBytes "A"), ⟨2, [], 5⟩⟩] [] =
      .error (.schemaMismatch 1 22) := by
  constructor
  · rw [c5_diagnostic_masking.1 [⟨to_teal_encoded_str (strBytes "A"), ⟨9, [], 0⟩⟩] []
      (by decide)]
    decide
  · rw [c5_diagnostic_masking.1 [⟨to_teal_encoded_str (strBytes "A"), ⟨2, [], 5⟩⟩] []
      (by decide)]
    decide
